import Mathlib

set_option maxRecDepth 100000

/-!
Verification development for the environmental-monitoring report generator
(files processing.py and text_generation.py of the repository).

The Python code is shallowly embedded: pandas data frames become lists of
records, float cells become rationals (ℚ), NaN / None / missing columns
become Option.none, and string manipulation is reproduced over Lean strings.
The embedding is executable throughout, so concrete runs of the embedded
program can be checked by evaluation.

Modelling conventions, stated once:
* Python floats are modelled as exact rationals.  The decimal renderings
  produced by the code (str(x), the "%g" format, round(x, n)) are modelled
  by pyStrFloat, gFormat and pyRound below; they agree with CPython for
  every value they are applied to in this development (short decimal
  fractions, where the binary double is the nearest representable and the
  shortest round-trip repr is the decimal itself, and where round's
  half-to-even tie-breaking acts on an exactly representable tie).
* float(...) / pd.to_numeric(..., errors='coerce') are modelled by
  parseFloat, which accepts optionally signed decimal literals with an
  optional fractional part, surrounded by spaces; values the real parser
  accepts beyond that (exponents, inf, nan, underscores) do not occur in
  the inputs considered here, and nan coerces to the same observable
  behaviour as a failed parse (the row is dropped).
* pandas timestamps are irrelevant to every property below; the fecha
  column is carried through unchanged as an opaque string.
-/

/-! ## Python string primitives -/

/-- Python substring search: the list-level worker for the `in` operator. -/
def containsSubL (pat : List Char) : List Char → Bool
  | [] => pat.isPrefixOf []
  | a :: as => pat.isPrefixOf (a :: as) || containsSubL pat as

/-- Python `pat in s` for strings. -/
def containsSub (s : String) (pat : String) : Bool :=
  containsSubL pat.data s.data

/-- Boolean string-prefix test (used to state connective properties). -/
def startsWithS (s p : String) : Bool :=
  p.data.isPrefixOf s.data

/-- Python s.split(c) for a single-character separator, on char lists. -/
def splitOnCharL (c : Char) : List Char → List (List Char)
  | [] => [[]]
  | a :: as =>
    match splitOnCharL c as with
    | [] => [[]]
    | h :: t => if a == c then [] :: h :: t else (a :: h) :: t

/-- Python s.upper() (the names uppercased by the code are ASCII). -/
def strUpper (s : String) : String :=
  ⟨s.data.map Char.toUpper⟩

/-- Python str.replace on char lists, worker with explicit fuel (structural
recursion, so that concrete instances evaluate inside the kernel): replace
every non-overlapping occurrence of pat (left to right) by rep.  The fuel
arm with 0 is unreachable for fuel at least the list length and a nonempty
pattern. -/
def replaceLF (pat rep : List Char) : ℕ → List Char → List Char
  | _, [] => []
  | 0, l => l
  | fuel + 1, a :: as =>
    if pat ≠ [] ∧ pat.isPrefixOf (a :: as) then
      rep ++ replaceLF pat rep fuel ((a :: as).drop pat.length)
    else
      a :: replaceLF pat rep fuel as

/-- Python str.replace on char lists.  The callers below never pass an
empty pattern. -/
def replaceL (pat rep l : List Char) : List Char :=
  replaceLF pat rep l.length l

/-- Python s.replace(pat, rep). -/
def strReplace (s pat rep : String) : String :=
  ⟨replaceL pat.data rep.data s.data⟩

/-- Digits of a char list read as a base-10 natural number; none when some
character is not a digit. -/
def digitsToNat (l : List Char) : Option ℕ :=
  if l.all Char.isDigit then
    some (l.foldl (fun a c => a * 10 + (c.toNat - 48)) 0)
  else none

/-! The bundled ℚ arithmetic (Rat.add, Rat.mul, Rat.inv, ...) is irreducible
for this toolchain's kernel, so the embedding routes every arithmetic
operation through the following Rat.divInt-based wrappers, which evaluate
inside the kernel; they are proved equal to the bundled operations in the
lemma section below. -/

/-- Exact negation on ℚ through Rat.divInt. -/
def qneg (a : ℚ) : ℚ :=
  Rat.divInt (-a.num) a.den

/-- Exact addition on ℚ through Rat.divInt. -/
def qadd (a b : ℚ) : ℚ :=
  Rat.divInt (a.num * b.den + b.num * a.den) (a.den * b.den)

/-- Exact subtraction on ℚ through Rat.divInt. -/
def qsub (a b : ℚ) : ℚ :=
  Rat.divInt (a.num * b.den - b.num * a.den) (a.den * b.den)

/-- Exact multiplication on ℚ through Rat.divInt. -/
def qmul (a b : ℚ) : ℚ :=
  Rat.divInt (a.num * b.num) (a.den * b.den)

/-- Exact division on ℚ through Rat.divInt (division by zero gives 0, as
for the bundled operation). -/
def qdiv (a b : ℚ) : ℚ :=
  Rat.divInt (a.num * b.den) (a.den * b.num)

/-- Integer embedded into ℚ. -/
def qofInt (n : ℤ) : ℚ :=
  Rat.divInt n 1

/-- Absolute value on ℚ. -/
def qabs (a : ℚ) : ℚ :=
  if a.num < 0 then qneg a else a

/-- Python sum(...) over a float list (left fold starting at 0). -/
def qsum (l : List ℚ) : ℚ :=
  l.foldl qadd 0

/-- Python min(...) over a nonempty float list: keep the running minimum. -/
def pyListMin (v : ℚ) (vs : List ℚ) : ℚ :=
  vs.foldl (fun acc x => if x < acc then x else acc) v

/-- Python max(...) over a nonempty float list: keep the running maximum. -/
def pyListMax (v : ℚ) (vs : List ℚ) : ℚ :=
  vs.foldl (fun acc x => if acc < x then x else acc) v

/-- Model of float(...) and pd.to_numeric(..., errors='coerce') on a string:
optional surrounding spaces, optional sign, digits with at most one decimal
point, at least one digit in total. -/
def parseFloat (s : String) : Option ℚ :=
  let t := ((s.data.dropWhile (· == ' ')).reverse.dropWhile (· == ' ')).reverse
  let core : List Char × ℤ :=
    match t with
    | '-' :: r => (r, -1)
    | '+' :: r => (r, 1)
    | r => (r, 1)
  match core.1.splitOn '.' with
  | [ip] =>
    if ip.isEmpty then none
    else (digitsToNat ip).map fun n => Rat.divInt (core.2 * n) 1
  | [ip, fp] =>
    if ip.isEmpty && fp.isEmpty then none
    else
      (digitsToNat ip).bind fun n =>
        (digitsToNat fp).map fun f =>
          Rat.divInt (core.2 * ((n : ℤ) * 10 ^ fp.length + f)) (10 ^ fp.length)
  | _ => none

/-! ## Python float rendering and rounding -/

/-- Multiplicity of the prime p in n, with explicit fuel (fuel ≥ n suffices). -/
def countFac (p : ℕ) : ℕ → ℕ → ℕ
  | _, 0 => 0
  | n, fuel + 1 =>
    if 2 ≤ p && n % p == 0 && p ≤ n then countFac p (n / p) fuel + 1 else 0

/-- Smallest number of decimal digits that can carry 1/den exactly, for
denominators of the form 2^a * 5^b. -/
def decExpOf (den : ℕ) : ℕ :=
  max (countFac 2 den den) (countFac 5 den den)

/-- Decimal decomposition of a rational whose denominator divides a power of
ten: (sign bit, integer part, fractional digits with trailing zeros
stripped).  none for rationals with no finite decimal expansion. -/
def decParts (q : ℚ) : Option (Bool × ℕ × String) :=
  let k := decExpOf q.den
  if q.den ∣ 10 ^ k then
    let scaled := q.num.natAbs * (10 ^ k / q.den)
    let ip := scaled / 10 ^ k
    let fr := scaled % 10 ^ k
    let digits := toString fr
    let padded : List Char := List.replicate (k - digits.length) '0' ++ digits.data
    let stripped : List Char := (padded.reverse.dropWhile (· == '0')).reverse
    some (decide (q.num < 0), ip, ⟨stripped⟩)
  else none

/-- CPython str(x) for a float: always shows a decimal point, keeps a plain
"0" fractional part for integral values (str(33.0) = "33.0"). -/
def pyStrFloat (q : ℚ) : String :=
  match decParts q with
  | some (neg, ip, fr) =>
    (if neg then "-" else "") ++ toString ip ++ "." ++ (if fr = "" then "0" else fr)
  | none => "~" ++ toString q.num ++ "/" ++ toString q.den

/-- The "%g" C format used through locale.format_string: like str but drops
the decimal point for integral values ("%g" of 7.0 is "7"). -/
def gFormat (q : ℚ) : String :=
  match decParts q with
  | some (neg, ip, fr) =>
    (if neg then "-" else "") ++ toString ip ++ (if fr = "" then "" else "." ++ fr)
  | none => "~" ++ toString q.num ++ "/" ++ toString q.den

/-- Floor of a rational as an integer. -/
def ratFloor (q : ℚ) : ℤ :=
  q.num.fdiv q.den

/-- Round-half-to-even to the nearest integer (CPython round's tie rule). -/
def roundHalfEven (q : ℚ) : ℤ :=
  let f := ratFloor q
  let r := qsub q (qofInt f)
  if r < mkRat 1 2 then f
  else if mkRat 1 2 < r then f + 1
  else if f % 2 = 0 then f else f + 1

/-- CPython round(x, ndigits) (banker's rounding). -/
def pyRound (ndigits : ℕ) (q : ℚ) : ℚ :=
  Rat.divInt (roundHalfEven (qmul q (qofInt (10 ^ ndigits)))) (10 ^ ndigits)

/-! ## Data model

A pandas cell of the raw 'valor' column is numeric, a string, or blank
(NaN); astype(str) renders these as str(x), the string itself, and "nan". -/

inductive Cell where
  | num (q : ℚ)
  | str (s : String)
  | blank
deriving DecidableEq

/-- astype(str) on a raw cell. -/
def cellStr : Cell → String
  | .num q => pyStrFloat q
  | .str s => s
  | .blank => "nan"

/-- One row of the 'datos' sheet before cleaning. -/
structure RawRow where
  parametro : String
  unidad : String
  estacion : String
  fecha : String
  valor : Cell
deriving DecidableEq

/-- One row after clean_data: 'valor' is numeric and non-null, and the
'parametro_unidad' display column has been added.  clean_data creates no
other column — in particular no es_LD and no valor_raw column. -/
structure CleanRow where
  parametro : String
  unidad : String
  estacion : String
  fecha : String
  valor : ℚ
  parametro_unidad : String
deriving DecidableEq

/-- One row of the regulation sheet: its key plus the threshold columns,
read as a total lookup (none = column absent or NaN). -/
structure EcaRow where
  parametro : String
  unidad : String
  limits : String → Option ℚ

/-- One row after merge_data: a cleaned measurement plus the threshold
columns of the matching regulation row (all none when nothing matched). -/
structure MergedRow where
  parametro : String
  unidad : String
  estacion : String
  fecha : String
  valor : ℚ
  parametro_unidad : String
  limits : String → Option ℚ

/-- A per-parameter group as consumed by the text generators: the scalar
columns read through .iloc[0], the 'valor' column, the optional es_LD and
valor_raw columns (none = column absent from the frame), and the threshold
columns read through grupo.get(col, pd.Series([None])).iloc[0]. -/
structure Grupo where
  parametro : String
  unidad : String
  valores : List ℚ
  es_LD : Option (List Bool)
  valor_raw : Option (List String)
  limits : String → Option ℚ

/-- The group df_final[df_final['parametro'] == param] handed to the text
generators by the app: scalar columns from the first row, no es_LD and no
valor_raw column (clean_data/merge_data never create them). -/
def grupoOfMerged (rows : List MergedRow) : Grupo where
  parametro := (rows.head?.map (·.parametro)).getD ""
  unidad := (rows.head?.map (·.unidad)).getD ""
  valores := rows.map (·.valor)
  es_LD := none
  valor_raw := none
  limits := (rows.head?.map (·.limits)).getD fun _ => none

/-! ## processing.py -/

/-- Cleaning of one 'valor' cell (the per-row action of clean_data's
vectorised block, lines 51-73): cells whose string form contains '<' have
the marker removed, are coerced to numeric and halved; the rest are coerced
directly; failures become NaN (none). -/
def cleanCell (c : Cell) : Option ℚ :=
  if containsSub (cellStr c) "<" then
    (parseFloat (strReplace (cellStr c) "<" "")).map fun q => qdiv q (qofInt 2)
  else
    match c with
    | .num q => some q
    | .str s => parseFloat s
    | .blank => none

/-- clean_data (processing.py lines 30-85): clean the 'valor' column, drop
rows whose value is NaN, and add the 'parametro_unidad' display column.
Date parsing (to_datetime) is modelled as the identity on the opaque fecha
string. -/
def clean_data (df : List RawRow) : List CleanRow :=
  df.filterMap fun r =>
    (cleanCell r.valor).map fun v =>
      { parametro := r.parametro
        unidad := r.unidad
        estacion := r.estacion
        fecha := r.fecha
        valor := v
        parametro_unidad := r.parametro ++ " (" ++ r.unidad ++ ")" }

/-- merge_data (processing.py lines 87-95): left equi-join on
(parametro, unidad); measurements with no matching regulation row keep all
threshold columns null. -/
def merge_data (df_datos : List CleanRow) (df_eca : List EcaRow) : List MergedRow :=
  df_datos.flatMap fun d =>
    match df_eca.filter fun e => e.parametro == d.parametro && e.unidad == d.unidad with
    | [] =>
      [{ parametro := d.parametro, unidad := d.unidad, estacion := d.estacion
         fecha := d.fecha, valor := d.valor, parametro_unidad := d.parametro_unidad
         limits := fun _ => none }]
    | es =>
      es.map fun e =>
        { parametro := d.parametro, unidad := d.unidad, estacion := d.estacion
          fecha := d.fecha, valor := d.valor, parametro_unidad := d.parametro_unidad
          limits := e.limits }

/-- Membership test of get_regulation_columns (processing.py lines 97-106):
note the 'ISGQ' spelling in the source.  Python col.startswith(p) is the
prefix test startsWithS. -/
def isRegulationCol (col : String) : Bool :=
  startsWithS col "lim_" || startsWithS col "ISGQ" || startsWithS col "PEL"

/-- get_regulation_columns (processing.py lines 97-106). -/
def get_regulation_columns (cols : List String) : List String :=
  cols.filter isRegulationCol

/-- Friendly group name of one regulation column (the body of the loop in
get_regulation_groups, processing.py lines 117-147). -/
def friendlyName (col : String) : String :=
  let name := strReplace (strReplace (strReplace col "lim_inf_" "") "lim_sup_" "") "lim_" ""
  if containsSub col "ISGQ" || containsSub col "PEL" then
    match splitOnCharL '_' col.data with
    | _ :: p1 :: _ => "CCME " ++ strUpper ⟨p1⟩
    | _ => "CCME SEDIMENTOS"
  else
    strUpper (strReplace name "_" " ")

/-- Insertion into the ordered groups dict: append to the entry with this
key, or create the entry at the end (Python dict insertion order). -/
def addToGroups : List (String × List String) → String → String → List (String × List String)
  | [], fn, col => [(fn, [col])]
  | (k, cs) :: rest, fn, col =>
    if k = fn then (k, cs ++ [col]) :: rest
    else (k, cs) :: addToGroups rest fn col

/-- get_regulation_groups (processing.py lines 108-154) as an ordered
association list, preserving dict insertion order. -/
def get_regulation_groups (cols : List String) : List (String × List String) :=
  (get_regulation_columns cols).foldl (fun gs col => addToGroups gs (friendlyName col) col) []

/-- First entry with the given key in an ordered association list. -/
def findGroup : List (String × List String) → String → Option (List String)
  | [], _ => none
  | (k, cs) :: rest, key => if k = key then some cs else findGroup rest key

/-- First-seen-order deduplication (the order in which dict keys appear). -/
def dedupKeepFirst (l : List String) : List String :=
  l.foldl (fun acc x => if x ∈ acc then acc else acc ++ [x]) []

/-! ## text_generation.py — shared formatting helpers -/

/-- format_number (text_generation.py lines 14-18): "%g" formatting with the
decimal point replaced by a comma; NaN prints as "NaN". -/
def format_number : Option ℚ → String
  | none => "NaN"
  | some q => strReplace (gFormat q) "." ","

/-- format_percent (text_generation.py lines 20-23): str(x) with the decimal
point replaced by a comma; None/NaN prints as "NaN". -/
def format_percent : Option ℚ → String
  | none => "NaN"
  | some q => strReplace (pyStrFloat q) "." ","

/-- Python str() of an int-or-None (the combined-clause fallback can format
a None count). -/
def pyStrOptNat : Option ℕ → String
  | none => "None"
  | some n => toString n

/-! ## get_base_statistics_text (lines 25-82) -/

/-- Lines 33-34: a missing es_LD column is treated as all-False. -/
def esLDListOf (g : Grupo) : List Bool :=
  match g.es_LD with
  | some l => l
  | none => g.valores.map fun _ => false

/-- Lines 36-39: the raw-value strings, falling back to str() of the numeric
column when valor_raw is absent. -/
def rawValuesOf (g : Grupo) : List String :=
  match g.valor_raw with
  | some l => l
  | none => g.valores.map pyStrFloat

/-- Lines 45-51: raw detection-limit strings — rows flagged es_LD whose raw
text contains '<', with the marker removed and ',' normalised to '.'. -/
def ldRawValues (valores_raw : List String) (es_LD_list : List Bool) : List String :=
  (es_LD_list.zip valores_raw).filterMap fun p =>
    if p.1 && containsSub p.2 "<" then
      some (strReplace (strReplace p.2 "<" "") "," ".")
    else none

/-- Python sorted(list(set(fs))) on floats. -/
def sortedDedupRat (fs : List ℚ) : List ℚ :=
  List.insertionSort (· ≤ ·) fs.dedup

/-- Lines 53-57: parse the detection limits as floats, de-duplicate, sort
ascending, format with a comma decimal separator; if any float() call
raises, fall back to the sorted set of raw strings. -/
def ldUnicos (ld_raw_values : List String) : List String :=
  match ld_raw_values.mapM parseFloat with
  | some fs => (sortedDedupRat fs).map fun q => strReplace (pyStrFloat q) "." ","
  | none => List.insertionSort (· ≤ ·) ld_raw_values.dedup

/-- Lines 59-73: min/max/mean formatting; the mean is rounded to 2 decimals
only when its absolute value is at least 0.1. -/
def statsTriple (valores_numericos : List ℚ) : String × String × String :=
  match valores_numericos with
  | [] => ("NaN", "NaN", "NaN")
  | v :: vs =>
    let minimo := pyListMin v vs
    let maximo := pyListMax v vs
    let promedio := qdiv (qsum (v :: vs)) (qofInt (v :: vs).length)
    (format_number (some minimo), format_number (some maximo),
      if mkRat 1 10 ≤ qabs promedio then format_number (some (pyRound 2 promedio))
      else format_number (some promedio))

/-- Line 76: the all-below-detection-limit summary. -/
def resumenLD (ld_unicos : List String) (unidad : String) : String :=
  "se encontraron por debajo del límite de detección (" ++
    String.intercalate ", " ld_unicos ++ " " ++ unidad ++ ")"

/-- Line 78: the min/max/mean summary. -/
def resumenMinMax (min_t max_t prom_t unidad : String) : String :=
  "variaron desde un mínimo igual a " ++ min_t ++ " " ++ unidad ++
    " hasta un máximo igual a " ++ max_t ++ " " ++ unidad ++
    ", contando con un valor promedio de " ++ prom_t ++ " " ++ unidad

/-- Line 80: the mixed summary. -/
def resumenMixto (ld_unicos : List String) (max_t prom_t unidad : String) : String :=
  "variaron desde por debajo del límite de detección (" ++
    String.intercalate ", " ld_unicos ++ " " ++ unidad ++
    ") hasta un máximo igual a " ++ max_t ++ " " ++ unidad ++
    ", con un valor promedio de " ++ prom_t ++ " " ++ unidad

/-- get_base_statistics_text (lines 25-82): the shared opening sentence and
the numeric value list. -/
def get_base_statistics_text (grupo : Grupo) : String × List ℚ :=
  let es_LD_list := esLDListOf grupo
  let ld_unicos := ldUnicos (ldRawValues (rawValuesOf grupo) es_LD_list)
  let t := statsTriple grupo.valores
  let resumen :=
    if es_LD_list.all fun b => b then resumenLD ld_unicos grupo.unidad
    else if !(es_LD_list.any fun b => b) then resumenMinMax t.1 t.2.1 t.2.2 grupo.unidad
    else resumenMixto ld_unicos t.2.1 t.2.2 grupo.unidad
  ("Como se observa en el gráfico, los valores de " ++ grupo.parametro ++
     " registrados en todas las estaciones " ++ resumen ++ ".", grupo.valores)

/-! ## generate_text_surface (lines 84-261) -/

/-- check_compliance (lines 95-103): None when both limits are null,
otherwise the count of values below the lower or above the upper limit
(a null bound constrains nothing on its side). -/
def check_compliance (valores_numericos : List ℚ) (limit_inf limit_sup : Option ℚ) : Option ℕ :=
  match limit_inf, limit_sup with
  | none, none => none
  | _, _ =>
    some ((valores_numericos.filter fun v =>
      (match limit_inf with | some i => decide (v < i) | none => false) ||
      (match limit_sup with | some s => decide (s < v) | none => false)).length)

/-- format_limits (lines 169-176). -/
def format_limits (inf sup : Option ℚ) : String :=
  match inf, sup with
  | some i, some s => strReplace (pyStrFloat i) "." "," ++ " a " ++ strReplace (pyStrFloat s) "." ","
  | none, some s => strReplace (pyStrFloat s) "." ","
  | some i, none => strReplace (pyStrFloat i) "." ","
  | none, none => ""

/-- Lines 156-157: strip the bound markers from a selected column name. -/
def cleanKey (col : String) : String :=
  strReplace (strReplace (strReplace col "lim_inf_" "") "lim_sup_" "") "lim_" ""

/-- Lines 154-160: unique standard keys of the selection, in encounter
order. -/
def activeKeys (selected_regulations : List String) : List String :=
  selected_regulations.foldl
    (fun acc col => if cleanKey col ∈ acc then acc else acc ++ [cleanKey col]) []

/-- reg_meta (lines 117-149): standard key → (description, category name). -/
def reg_meta : List (String × String × String) :=
  [ ("eca_2017_1a1", "aguas que pueden ser potabilizadas con desinfección", "1 - A1")
  , ("eca_2017_1a2", "aguas que pueden ser potabilizadas con tratamiento convencional", "1 - A2")
  , ("eca_2017_1a3", "aguas que pueden ser potabilizadas con tratamiento avanzado", "1 - A3")
  , ("eca_2017_1b1", "aguas superficiales destinadas para recreación de contacto primario", "1 - B1")
  , ("eca_2017_1b2", "aguas superficiales destinadas para recreación de contacto secundario", "1 - B2")
  , ("eca_2017_2c1", "extracción y cultivo de moluscos, equinodermos y tunicados en aguas marino costeras", "2 - C1")
  , ("eca_2017_2c2", "extracción y cultivo de otras especies hidrobiológicas en aguas marino costeras", "2 - C2")
  , ("eca_2017_2c3", "actividades marino portuarias, industriales o de saneamiento en aguas marino costeras", "2 - C3")
  , ("eca_2017_2c4", "extracción y cultivo de especies hidrobiológicas en lagos y lagunas", "2 - C4")
  , ("eca_2017_3d1", "riego de vegetales", "3 - D1")
  , ("eca_2017_3d2", "bebida de animales", "3 - D2")
  , ("eca_2017_4e1", "conservación del ambiente acuático para lagunas y lagos", "4 - E1")
  , ("eca_2017_4e2_cys", "conservación del ambiente acuático para ríos", "4 - E2 costa y sierra")
  , ("eca_2017_4e2_s", "conservación del ambiente acuático para ríos", "4 - E2 selva")
  , ("eca_2017_4e3_e", "conservación del ambiente acuático para ecosistemas costeros y marinos", "4 - E3 estuarios")
  , ("eca_2017_4e3_m", "conservación del ambiente acuático para ecosistemas costeros y marinos", "4 - E3 marinos")
  , ("lga_i", "", "I")
  , ("lga_ii", "", "II")
  , ("lga_iii", "", "III")
  , ("lga_iv", "", "IV")
  , ("lga_v", "", "V")
  , ("lga_vi", "", "VI")
  , ("eca_2008_1a1", "aguas que pueden ser potabilizadas con desinfección", "1 - A1") ]

/-- Line 239: reg_meta.get(key, ("", key.replace("_", " ").upper())). -/
def regMetaGet (key : String) : String × String :=
  match reg_meta.find? fun e => e.1 == key with
  | some e => (e.2.1, e.2.2)
  | none => ("", strUpper (strReplace key "_" " "))

/-- The combined ECA-2017 3D1/3D2 block (lines 188-232), entered when both
keys are active. -/
def surfaceComboClause (grupo : Grupo) (valores_numericos : List ℚ) (n_total : ℕ) : String :=
  let inf1 := grupo.limits "lim_inf_eca_2017_3d1"
  let sup1 := grupo.limits "lim_sup_eca_2017_3d1"
  let inc1 := check_compliance valores_numericos inf1 sup1
  let inf2 := grupo.limits "lim_inf_eca_2017_3d2"
  let sup2 := grupo.limits "lim_sup_eca_2017_3d2"
  let inc2 := check_compliance valores_numericos inf2 sup2
  let lim_fmt1 := format_limits inf1 sup1
  let lim_fmt2 := format_limits inf2 sup2
  let porc1 := inc1.map fun n => pyRound 2 (qdiv (qofInt (100 * n)) (qofInt n_total))
  let porc2 := inc2.map fun n => pyRound 2 (qdiv (qofInt (100 * n)) (qofInt n_total))
  if inf1 = none ∧ sup1 = none ∧ inf2 = none ∧ sup2 = none then
    " Cabe mencionar que no existe un ECA 2017 para agua para la categoría 3 – D1 (riego de vegetales) y 3 - D2 (bebida de animales) aplicable para este parámetro."
  else if inc1 = some 0 ∧ inc2 = some 0 then
    " Al comparar los resultados obtenidos con el ECA 2017 para agua para la categoría 3 – D1 (" ++
      lim_fmt1 ++ " " ++ grupo.unidad ++ ") y 3 - D2 (" ++ lim_fmt2 ++ " " ++ grupo.unidad ++
      "), se observa que todos los registros cumplen con el ECA 2017."
  else if inc1 = some n_total ∧ inc2 = some n_total then
    " Al comparar los resultados obtenidos con el ECA 2017 para agua para la categoría 3 – D1 (" ++
      lim_fmt1 ++ " " ++ grupo.unidad ++ ") y 3 - D2 (" ++ lim_fmt2 ++ " " ++ grupo.unidad ++
      "), se observa que todos los registros no cumplen con el ECA 2017."
  else
    let p1_txt :=
      if inc1 = some 0 then "todos los registros cumplen con el ECA 2017"
      else if inc1 = some n_total then "todos los registros no cumplen con el ECA 2017"
      else pyStrOptNat inc1 ++ " (" ++ format_percent porc1 ++ " %) de los registros no cumplen con el valor establecido"
    let p2_txt :=
      if inc2 = some 0 then "todos los registros cumplen con el ECA 2017"
      else if inc2 = some n_total then "todos los registros no cumplen con el ECA 2017"
      else pyStrOptNat inc2 ++ " (" ++ format_percent porc2 ++ " %) de los registros no cumplen con el valor establecido"
    " Al comparar los resultados obtenidos con el ECA 2017 para agua para la categoría 3 – D1 (" ++
      lim_fmt1 ++ " " ++ grupo.unidad ++ "), se observa que " ++ p1_txt ++
      "; y comparando con el ECA 2017 para agua para la categoría 3 - D2 (" ++
      lim_fmt2 ++ " " ++ grupo.unidad ++ "), se observa que " ++ p2_txt ++ "."

/-- One iteration of the general per-key loop (lines 235-259).  Note the
0-decimal rounding of the percentage at line 252. -/
def surfaceLoopClause (grupo : Grupo) (valores_numericos : List ℚ) (n_total : ℕ) (key : String) : String :=
  let meta := regMetaGet key
  let desc := meta.1
  let cat_name := meta.2
  let std_name :=
    if containsSub key "eca_2017" then "ECA 2017"
    else if containsSub key "eca_2008" then "ECA 2008" else "LGA"
  let inf := grupo.limits ("lim_inf_" ++ key)
  let sup := grupo.limits ("lim_sup_" ++ key)
  let lim_fmt := format_limits inf sup
  match check_compliance valores_numericos inf sup with
  | none =>
    " Cabe mencionar que no existe un " ++ std_name ++ " para agua para la categoría " ++
      cat_name ++ " (" ++ desc ++ ") aplicable para este parámetro."
  | some inc =>
    let porc := pyRound 0 (qdiv (qofInt (100 * inc)) (qofInt n_total))
    if inc = 0 then
      " Al comparar los resultados obtenidos con el " ++ std_name ++
        " para agua para la categoría " ++ cat_name ++ " (" ++ lim_fmt ++ " " ++ grupo.unidad ++
        "), se observa que todos los registros cumplen con el " ++ std_name ++ "."
    else if inc = n_total then
      " Al comparar los resultados obtenidos con el " ++ std_name ++
        " para agua para la categoría " ++ cat_name ++ " (" ++ lim_fmt ++ " " ++ grupo.unidad ++
        "), se observa que todos los registros no cumplen con el " ++ std_name ++ "."
    else
      " Al comparar los resultados obtenidos con el " ++ std_name ++
        " para agua para la categoría " ++ cat_name ++ " (" ++ lim_fmt ++ " " ++ grupo.unidad ++
        "), se observa que " ++ toString inc ++ " (" ++ format_percent (some porc) ++
        " %) de los registros no cumplen con el valor establecido."

/-- generate_text_surface (lines 84-261): base sentence, the combined
3D1/3D2 clause when both keys are active (which marks both keys processed),
then the general loop over the remaining active keys. -/
def generate_text_surface (grupo : Grupo) (selected_regulations : List String) : String :=
  let texto := (get_base_statistics_text grupo).1
  let valores_numericos := (get_base_statistics_text grupo).2
  let n_total := valores_numericos.length
  let active_keys := activeKeys selected_regulations
  let combo : Bool :=
    decide ("eca_2017_3d1" ∈ active_keys) && decide ("eca_2017_3d2" ∈ active_keys)
  let comboPart := if combo then [surfaceComboClause grupo valores_numericos n_total] else []
  let keys_processed : List String := if combo then ["eca_2017_3d1", "eca_2017_3d2"] else []
  let rest := (active_keys.filter fun k => !(keys_processed.contains k)).map
    (surfaceLoopClause grupo valores_numericos n_total)
  String.join (texto :: (comboPart ++ rest))

/-! ## generate_text_effluents (lines 327-420) -/

/-- get_lims (lines 339-341). -/
def get_lims (grupo : Grupo) (k : String) : Option ℚ × Option ℚ :=
  (grupo.limits ("lim_inf_" ++ k), grupo.limits ("lim_sup_" ++ k))

/-- fmt_lims (lines 343-347); same body as format_limits. -/
def fmt_lims (i s : Option ℚ) : String :=
  match i, s with
  | some iv, some sv => strReplace (pyStrFloat iv) "." "," ++ " a " ++ strReplace (pyStrFloat sv) "." ","
  | none, some sv => strReplace (pyStrFloat sv) "." ","
  | some iv, none => strReplace (pyStrFloat iv) "." ","
  | none, none => ""

/-- check_inc (lines 349-354); same body as check_compliance. -/
def check_inc (i s : Option ℚ) (vals : List ℚ) : Option ℕ :=
  match i, s with
  | none, none => none
  | _, _ =>
    some ((vals.filter fun v =>
      (match i with | some iv => decide (v < iv) | none => false) ||
      (match s with | some sv => decide (sv < v) | none => false)).length)

/-- The NMP 1996 clause (lines 359-374); always emitted first, with a plain
leading space. -/
def nmpClause (grupo : Grupo) (valores_numericos : List ℚ) (n_total : ℕ) : String :=
  let ls := get_lims grupo "nmp_minero"
  let lim_str := fmt_lims ls.1 ls.2
  match check_inc ls.1 ls.2 valores_numericos with
  | none =>
    " Cabe mencionar que no existe un NMP 1996 para efluentes minero-metalúrgicos aplicable para este parámetro."
  | some n_inc =>
    let porc := pyRound 2 (qdiv (qofInt (100 * n_inc)) (qofInt n_total))
    if n_inc = 0 then
      " Al comparar los resultados obtenidos con el NMP 1996 para efluentes minero-metalúrgicos (" ++
        lim_str ++ " " ++ grupo.unidad ++ "), se observa que todos los registros cumplen con el NMP."
    else if n_inc = n_total then
      " Al comparar los resultados obtenidos con el NMP 1996 para efluentes minero-metalúrgicos (" ++
        lim_str ++ " " ++ grupo.unidad ++ "), se observa que todos los registros no cumplen con el NMP."
    else
      " Al comparar los resultados obtenidos con el NMP 1996 para efluentes minero-metalúrgicos (" ++
        lim_str ++ " " ++ grupo.unidad ++ "), se observa que " ++ toString n_inc ++ " (" ++
        format_percent (some porc) ++ " %) de los registros no cumplen con el valor establecido."

/-- The LMP 2010 minero clause (lines 377-397), with the connective decided
by the has-prior-text flag. -/
def lmpMinClause (grupo : Grupo) (valores_numericos : List ℚ) (n_total : ℕ) (has_prior_text : Bool) : String :=
  let ls := get_lims grupo "lmp_2010_minero"
  let lim_str := fmt_lims ls.1 ls.2
  let connector := if has_prior_text then " Por otro lado, " else " "
  let first_word := if has_prior_text then "no" else "No"
  match check_inc ls.1 ls.2 valores_numericos with
  | none =>
    connector ++ first_word ++ " existe un LMP 2010 para efluentes minero-metalúrgicos (valor en cualquier momento) aplicable para este parámetro."
  | some n_inc =>
    let porc := pyRound 2 (qdiv (qofInt (100 * n_inc)) (qofInt n_total))
    let word_comp := if has_prior_text then "al" else "Al"
    if n_inc = 0 then
      connector ++ word_comp ++ " comparar los resultados obtenidos con el LMP 2010 para efluentes minero-metalúrgicos (" ++
        lim_str ++ " " ++ grupo.unidad ++ "), se observa que todos los registros cumplen con el LMP."
    else if n_inc = n_total then
      connector ++ word_comp ++ " comparar los resultados obtenidos con el LMP 2010 para efluentes minero-metalúrgicos (" ++
        lim_str ++ " " ++ grupo.unidad ++ "), se observa que todos los registros no cumplen con el LMP."
    else
      connector ++ word_comp ++ " comparar los resultados obtenidos con el LMP 2010 para efluentes minero-metalúrgicos (" ++
        lim_str ++ " " ++ grupo.unidad ++ "), se observa que " ++ toString n_inc ++ " (" ++
        format_percent (some porc) ++ " %) de los registros no cumplen con el valor establecido."

/-- The LMP 2010 doméstico clause (lines 400-418); note the source's partial
branch says "con LMP 2010" without "el". -/
def lmpDomClause (grupo : Grupo) (valores_numericos : List ℚ) (n_total : ℕ) (has_prior_text : Bool) : String :=
  let ls := get_lims grupo "lmp_2010_domestico"
  let lim_str := fmt_lims ls.1 ls.2
  let connector := if has_prior_text then " Por otro lado, " else " "
  let first_word := if has_prior_text then "no" else "No"
  match check_inc ls.1 ls.2 valores_numericos with
  | none =>
    connector ++ first_word ++ " existe un valor en los LMP 2010 para efluentes domésticos o municipales aplicable para este parámetro."
  | some n_inc =>
    let porc := pyRound 2 (qdiv (qofInt (100 * n_inc)) (qofInt n_total))
    let word_comp := if has_prior_text then "al" else "Al"
    if n_inc = 0 then
      connector ++ word_comp ++ " comparar los resultados obtenidos con el LMP 2010 para efluentes domésticos o municipales (" ++
        lim_str ++ " " ++ grupo.unidad ++ "), se observa que todos los registros cumplen con el LMP."
    else if n_inc = n_total then
      connector ++ word_comp ++ " comparar los resultados obtenidos con el LMP 2010 para efluentes domésticos o municipales (" ++
        lim_str ++ " " ++ grupo.unidad ++ "), se observa que todos los registros no cumplen con el LMP."
    else
      connector ++ word_comp ++ " comparar los resultados obtenidos con LMP 2010 para efluentes domésticos o municipales (" ++
        lim_str ++ " " ++ grupo.unidad ++ "), se observa que " ++ toString n_inc ++ " (" ++
        format_percent (some porc) ++ " %) de los registros no cumplen con el valor establecido."

/-- The ordered clause list of generate_text_effluents: the three standards
in source order, the has_prior_text flag set after every emitted clause
(lines 356-418). -/
def effluentsClauses (grupo : Grupo) (valores_numericos : List ℚ) (n_total : ℕ)
    (selected_regs : List String) : List String :=
  let joined := String.intercalate "," selected_regs
  let map_nmp := containsSub joined "nmp_minero"
  let map_lmp_min := containsSub joined "lmp_2010_minero"
  let map_lmp_dom := containsSub joined "lmp_2010_domestico"
  (if map_nmp then [nmpClause grupo valores_numericos n_total] else []) ++
  (if map_lmp_min then [lmpMinClause grupo valores_numericos n_total map_nmp] else []) ++
  (if map_lmp_dom then [lmpDomClause grupo valores_numericos n_total (map_nmp || map_lmp_min)] else [])

/-- generate_text_effluents (lines 327-420). -/
def generate_text_effluents (grupo : Grupo) (selected_regs : List String) : String :=
  let texto := (get_base_statistics_text grupo).1
  let valores_numericos := (get_base_statistics_text grupo).2
  String.join (texto :: effluentsClauses grupo valores_numericos valores_numericos.length selected_regs)

/-! ## generate_text_sediments (lines 425-465) -/

/-- comparar (lines 437-445): None when the threshold is null, otherwise the
clause comparing against it (counting values strictly above the limit, with
a 2-decimal percentage). -/
def comparar (valores_numericos : List ℚ) (unidad : String) (limit_val : Option ℚ)
    (limit_name : String) : Option String :=
  match limit_val with
  | none => none
  | some lv =>
    let n := (valores_numericos.filter fun v => decide (lv < v)).length
    let porc := pyRound 2 (qdiv (qofInt (100 * n)) (qofInt valores_numericos.length))
    let lim_s := strReplace (pyStrFloat lv) "." ","
    if n = 0 then
      some (" Al comparar los resultados obtenidos con el " ++ limit_name ++ " (" ++ lim_s ++
        " " ++ unidad ++ "), se observa que todos los registros cumplen con el valor establecido.")
    else if n = valores_numericos.length then
      some (" Al comparar los resultados obtenidos con el " ++ limit_name ++ " (" ++ lim_s ++
        " " ++ unidad ++ "), se observa que todos los registros exceden el valor establecido.")
    else
      some (" Al comparar los resultados obtenidos con el " ++ limit_name ++ " (" ++ lim_s ++
        " " ++ unidad ++ "), se observa que " ++ toString n ++ " (" ++ format_percent (some porc) ++
        " %) de los registros exceden el valor establecido.")

/-- The column name generate_text_sediments reads the ISQG threshold from
(line 450) — note the 'ISQG' spelling, unlike processing.py's 'ISGQ'. -/
def sedimentsIsqgKey (suffix : String) : String :=
  "ISQG_" ++ suffix

/-- The column name generate_text_sediments reads the PEL threshold from
(line 451). -/
def sedimentsPelKey (suffix : String) : String :=
  "PEL_" ++ suffix

/-- generate_text_sediments (lines 425-465): freshwater takes precedence
over marine; a single shared not-applicable clause only when both
thresholds are absent. -/
def generate_text_sediments (grupo : Grupo) (selected_regs : List String) : String :=
  let texto := (get_base_statistics_text grupo).1
  let valores_numericos := (get_base_statistics_text grupo).2
  let is_fresh := selected_regs.any fun c => containsSub c "freshwater"
  let suffix := if is_fresh then "freshwater" else "marine"
  let tipo := if is_fresh then "sedimentos de agua dulce" else "sedimentos marinos"
  let val_isqg := grupo.limits (sedimentsIsqgKey suffix)
  let val_pel := grupo.limits (sedimentsPelKey suffix)
  let txt_isqg := comparar valores_numericos grupo.unidad val_isqg "ISQG"
  let txt_pel := comparar valores_numericos grupo.unidad val_pel "PEL"
  match txt_isqg, txt_pel with
  | none, none =>
    texto ++ " Cabe mencionar que no existe un ISQG ni un PEL para " ++ tipo ++
      " aplicable para este parámetro."
  | _, _ =>
    texto ++
      txt_isqg.getD (" Cabe mencionar que no existe un ISQG para " ++ tipo ++
        " aplicable para este parámetro.") ++
      txt_pel.getD (" Cabe mencionar que no existe un PEL para " ++ tipo ++
        " aplicable para este parámetro.")

/-! ## Specification-side definitions (for refinement statements only) -/

/-- Violation predicate in the words of spec §4.3: a value fails the check
"lower <= v <= upper", a null bound being unconstrained on its side. -/
def specViolatesB (inf sup : Option ℚ) (v : ℚ) : Bool :=
  !((match inf with | some i => decide (i ≤ v) | none => true) &&
    (match sup with | some s => decide (v ≤ s) | none => true))

/-- Shape of an opening comparison clause (spec: no leading connective, a
single leading space, capitalised sentence start "Al"/"No"/"Cabe"). -/
def firstClauseShape (c : String) : Prop :=
  (startsWithS c " Al" || startsWithS c " No" || startsWithS c " Cabe") = true ∧
  startsWithS c " Por otro lado, " = false

/-- Shape of a follow-up comparison clause in the effluents paragraph
(spec: leading " Por otro lado, " connective, lower-case continuation). -/
def laterClauseShape (c : String) : Prop :=
  (startsWithS c " Por otro lado, al" || startsWithS c " Por otro lado, no") = true

/-! ## Concrete inputs used to instantiate the theorems below -/

/-- A raw measurement row carrying a below-detection-limit cell. -/
def rawRowLD : RawRow :=
  { parametro := "Plomo", unidad := "mg/L", estacion := "E-1"
    fecha := "2024-01-01", valor := Cell.str "<2" }

/-- A small raw data frame mixing a numeric cell, a below-detection-limit
cell and an unparseable cell. -/
def dfMixed : List RawRow :=
  [ { parametro := "Plomo", unidad := "mg/L", estacion := "E-1"
      fecha := "2024-01-01", valor := Cell.num 5 }
  , rawRowLD
  , { parametro := "Plomo", unidad := "mg/L", estacion := "E-2"
      fecha := "2024-01-02", valor := Cell.str "<n.d." } ]

/-- A surface-water group with three values and a single upper limit of 10
for the ECA 2017 1-A1 category (one value, 15, violates it). -/
def gSurface : Grupo :=
  { parametro := "Plomo", unidad := "mg/L", valores := [5, 1, 15]
    es_LD := none, valor_raw := none
    limits := fun c => if c = "lim_sup_eca_2017_1a1" then some 10 else none }

/-- The selection activating only the ECA 2017 1-A1 key. -/
def selSurface : List String :=
  ["lim_sup_eca_2017_1a1"]

/-- A surface-water group in which every threshold column is absent. -/
def gNoLimits : Grupo :=
  { parametro := "Plomo", unidad := "mg/L", valores := [5, 1, 15]
    es_LD := none, valor_raw := none, limits := fun _ => none }

/-- The selection activating both combined categories ECA 2017 3D1/3D2 and
one further key. -/
def selCombo : List String :=
  [ "lim_inf_eca_2017_3d1", "lim_sup_eca_2017_3d1"
  , "lim_inf_eca_2017_3d2", "lim_sup_eca_2017_3d2"
  , "lim_sup_eca_2017_1a1" ]

/-- A group whose three values all sit below detection limits, with raw
thresholds "<1", "<1", "<2". -/
def gBelowLD : Grupo :=
  { parametro := "Plomo", unidad := "mg/L", valores := [mkRat 1 2, mkRat 1 2, 1]
    es_LD := some [true, true, true], valor_raw := some ["<1", "<1", "<2"]
    limits := fun _ => none }

/-- An effluents group with upper limits of 10 on the NMP and the LMP 2010
minero standards. -/
def gEffluents : Grupo :=
  { parametro := "Plomo", unidad := "mg/L", valores := [5, 1, 15]
    es_LD := none, valor_raw := none
    limits := fun c =>
      if c = "lim_sup_nmp_minero" then some 10
      else if c = "lim_sup_lmp_2010_minero" then some 10 else none }

/-- The selection activating the NMP and LMP 2010 minero standards. -/
def selEffluents : List String :=
  [ "lim_inf_nmp_minero", "lim_sup_nmp_minero"
  , "lim_inf_lmp_2010_minero", "lim_sup_lmp_2010_minero" ]

/-- The selection activating the freshwater sediment standards. -/
def selSediments : List String :=
  ["ISGQ_freshwater", "PEL_freshwater"]

/-- A surface-water group where both combined categories carry an upper
limit (10 for 3D1, 4 for 3D2), driving the combined clause into its mixed
fallback with partial violation counts. -/
def gComboMixed : Grupo :=
  { parametro := "Plomo", unidad := "mg/L", valores := [5, 1, 15]
    es_LD := none, valor_raw := none
    limits := fun c =>
      if c = "lim_sup_eca_2017_3d1" then some 10
      else if c = "lim_sup_eca_2017_3d2" then some 4 else none }

/-- The selection activating exactly the two combined categories. -/
def selComboPair : List String :=
  ["lim_sup_eca_2017_3d1", "lim_sup_eca_2017_3d2"]

/-- The column pair falsifying claim C8 as stated: both contain 'PEL', so
get_regulation_groups buckets them by their second underscore token. -/
def colsPel : List String :=
  ["lim_inf_PEL_a", "lim_sup_PEL_a"]

/-! ## Helper lemmas -/

theorem isPrefixOf_append_self (xs ys : List Char) : xs.isPrefixOf (xs ++ ys) = true := by
  induction xs with
  | nil => cases ys <;> rfl
  | cons a as ih => simp [List.isPrefixOf, ih]

theorem replaceLF_fuel (pat rep : List Char) (fuel₁ fuel₂ : ℕ) (l : List Char)
    (h₁ : l.length ≤ fuel₁) (h₂ : l.length ≤ fuel₂) :
    replaceLF pat rep fuel₁ l = replaceLF pat rep fuel₂ l := by
  induction fuel₁ generalizing fuel₂ l with
  | zero =>
    have hl : l = [] := List.length_eq_zero.mp (Nat.le_zero.mp h₁)
    subst hl
    cases fuel₂ <;> rfl
  | succ f ih =>
    cases l with
    | nil => cases fuel₂ <;> rfl
    | cons a as =>
      obtain ⟨f₂, rfl⟩ : ∃ f₂, fuel₂ = f₂ + 1 := by
        cases fuel₂ with
        | zero => exact absurd h₂ (by simp)
        | succ f₂ => exact ⟨f₂, rfl⟩
      simp only [replaceLF]
      by_cases hc : pat ≠ [] ∧ pat.isPrefixOf (a :: as) = true
      · rw [if_pos hc, if_pos hc]
        have hp : 1 ≤ pat.length := List.length_pos.mpr hc.1
        have hd : ((a :: as).drop pat.length).length ≤ as.length := by
          simp only [List.length_drop, List.length_cons]
          omega
        have hlen : as.length ≤ f := by simpa using h₁
        have hlen₂ : as.length ≤ f₂ := by simpa using h₂
        rw [ih _ _ (le_trans hd hlen) (le_trans hd hlen₂)]
      · rw [if_neg hc, if_neg hc]
        rw [ih _ _ (by simpa using h₁) (by simpa using h₂)]

theorem replaceL_matched (pat rep l : List Char) (h : pat ≠ []) :
    replaceL pat rep (pat ++ l) = rep ++ replaceL pat rep l := by
  match pat, h with
  | p :: ps, _ =>
    show replaceLF (p :: ps) rep ((p :: ps) ++ l).length ((p :: ps) ++ l) = _
    have hlen : ((p :: ps) ++ l).length = (ps.length + l.length) + 1 := by
      simp [Nat.add_comm, Nat.add_left_comm]
    rw [hlen, List.cons_append]
    simp only [replaceLF]
    rw [if_pos ⟨List.cons_ne_nil p ps,
      by rw [← List.cons_append]; exact isPrefixOf_append_self (p :: ps) l⟩]
    rw [← List.cons_append, List.drop_left]
    exact congrArg (rep ++ ·) (replaceLF_fuel _ _ _ _ _ (by omega) (le_refl _))

theorem replaceLF_skip (pat rep pre l : List Char) (fuel : ℕ)
    (hf : pre.length + l.length ≤ fuel)
    (h : ∀ i, i < pre.length → pat.isPrefixOf (pre.drop i ++ l) = false) :
    replaceLF pat rep fuel (pre ++ l) = pre ++ replaceLF pat rep (fuel - pre.length) l := by
  induction pre generalizing fuel with
  | nil => simp
  | cons a as ih =>
    obtain ⟨f, rfl⟩ : ∃ f, fuel = f + 1 := ⟨fuel - 1, by simp at hf; omega⟩
    rw [List.cons_append]
    simp only [replaceLF]
    have h0 : pat.isPrefixOf (a :: (as ++ l)) = false := by
      have := h 0 (by simp)
      simpa using this
    rw [if_neg fun hc => absurd hc.2 (by simp [h0])]
    rw [ih f (by simp at hf; omega)
      fun i hi => by simpa using h (i + 1) (by simpa using Nat.succ_lt_succ hi)]
    rw [List.cons_append]
    have : f + 1 - (a :: as).length = f - as.length := by simp [Nat.succ_sub_succ]
    rw [this]

theorem replaceL_skip (pat rep pre l : List Char)
    (h : ∀ i, i < pre.length → pat.isPrefixOf (pre.drop i ++ l) = false) :
    replaceL pat rep (pre ++ l) = pre ++ replaceL pat rep l := by
  show replaceLF pat rep (pre ++ l).length (pre ++ l) = _
  rw [replaceLF_skip pat rep pre l _ (by simp) h]
  have : (pre ++ l).length - pre.length = l.length := by simp
  rw [this]
  rfl

theorem strReplace_matched (pat x : String) (h : pat.data ≠ []) :
    strReplace (pat ++ x) pat "" = strReplace x pat "" := by
  show String.mk (replaceL pat.data [] (pat.data ++ x.data)) = _
  rw [replaceL_matched _ _ _ h]
  rfl

theorem findGroup_addToGroups (gs : List (String × List String)) (fn col k : String) :
    findGroup (addToGroups gs fn col) k =
      if k = fn then some ((findGroup gs fn).getD [] ++ [col]) else findGroup gs k := by
  induction gs with
  | nil =>
    simp only [addToGroups, findGroup]
    by_cases h : k = fn
    · subst h
      simp [findGroup]
    · rw [if_neg (fun hc : fn = k => h hc.symm), if_neg h]
  | cons e rest ih =>
    obtain ⟨ek, ecs⟩ := e
    simp only [addToGroups]
    by_cases hek : ek = fn
    · rw [if_pos hek]
      subst hek
      simp only [findGroup]
      split_ifs <;> subst_vars <;> first | rfl | simp_all
    · rw [if_neg hek]
      simp only [findGroup, ih]
      split_ifs <;> subst_vars <;> first | rfl | simp_all

theorem findGroup_mem (gs : List (String × List String)) (k : String) (cs : List String)
    (h : findGroup gs k = some cs) : (k, cs) ∈ gs := by
  induction gs with
  | nil => simp [findGroup] at h
  | cons e rest ih =>
    obtain ⟨ek, ecs⟩ := e
    by_cases hk : ek = k
    · subst hk
      rw [findGroup, if_pos rfl] at h
      cases h
      exact List.mem_cons_self _ _
    · rw [findGroup, if_neg hk] at h
      exact List.mem_cons_of_mem _ (ih h)

theorem findGroup_foldl (l : List String) (gs : List (String × List String)) (k : String) :
    findGroup (l.foldl (fun gs col => addToGroups gs (friendlyName col) col) gs) k =
      (if l.filter (fun c => friendlyName c = k) = [] then findGroup gs k
       else some ((findGroup gs k).getD [] ++ l.filter (fun c => friendlyName c = k))) := by
  induction l generalizing gs with
  | nil => simp
  | cons c l' ih =>
    simp only [List.foldl_cons, List.filter_cons]
    rw [ih, findGroup_addToGroups]
    by_cases hc : friendlyName c = k
    · subst hc
      simp only [if_pos rfl, decide_eq_true_eq, eq_self_iff_true, if_true]
      by_cases hrest : l'.filter (fun c' => friendlyName c' = friendlyName c) = []
      · simp [hrest]
      · simp only [if_neg hrest, if_neg (List.cons_ne_nil _ _), Option.getD_some,
          List.append_assoc, List.singleton_append]
    · rw [if_neg (fun hck : k = friendlyName c => hc hck.symm)]
      simp [hc]

theorem addToGroups_keys (gs : List (String × List String)) (fn col : String) :
    (addToGroups gs fn col).map Prod.fst =
      if fn ∈ gs.map Prod.fst then gs.map Prod.fst else gs.map Prod.fst ++ [fn] := by
  induction gs with
  | nil => simp [addToGroups]
  | cons e rest ih =>
    obtain ⟨ek, ecs⟩ := e
    simp only [addToGroups]
    by_cases hek : ek = fn
    · subst hek
      simp
    · rw [if_neg hek]
      simp only [List.map_cons, ih, List.mem_cons]
      by_cases hmem : fn ∈ rest.map Prod.fst
      · simp [hmem]
      · simp only [hmem, if_false]
        rw [if_neg (fun h : fn = ek ∨ False => h.elim (fun he => hek he.symm) False.elim)]
        simp

theorem keys_foldl (l : List String) (gs : List (String × List String)) :
    ((l.foldl (fun gs col => addToGroups gs (friendlyName col) col) gs).map Prod.fst) =
      l.foldl (fun acc c => if friendlyName c ∈ acc then acc else acc ++ [friendlyName c])
        (gs.map Prod.fst) := by
  induction l generalizing gs with
  | nil => rfl
  | cons c l' ih =>
    simp only [List.foldl_cons]
    rw [ih, addToGroups_keys]

theorem addToGroups_snd_mem (gs : List (String × List String)) (fn col : String)
    (e : String × List String) (c : String) (he : e ∈ addToGroups gs fn col) (hc : c ∈ e.2) :
    (∃ e' ∈ gs, c ∈ e'.2) ∨ c = col := by
  induction gs with
  | nil =>
    simp only [addToGroups, List.mem_singleton] at he
    subst he
    simp only [List.mem_singleton] at hc
    exact Or.inr hc
  | cons g rest ih =>
    obtain ⟨gk, gcs⟩ := g
    simp only [addToGroups] at he
    by_cases hgk : gk = fn
    · rw [if_pos hgk] at he
      rcases List.mem_cons.mp he with he1 | he2
      · subst he1
        simp only [List.mem_append, List.mem_singleton] at hc
        rcases hc with hc1 | hc2
        · exact Or.inl ⟨(gk, gcs), List.mem_cons_self _ _, hc1⟩
        · exact Or.inr hc2
      · exact Or.inl ⟨e, List.mem_cons_of_mem _ he2, hc⟩
    · rw [if_neg hgk] at he
      rcases List.mem_cons.mp he with he1 | he2
      · subst he1
        exact Or.inl ⟨(gk, gcs), List.mem_cons_self _ _, hc⟩
      · rcases ih he2 with ⟨e', he', hc'⟩ | hcol
        · exact Or.inl ⟨e', List.mem_cons_of_mem _ he', hc'⟩
        · exact Or.inr hcol

theorem foldl_snd_mem (l : List String) (gs : List (String × List String))
    (e : String × List String) (c : String)
    (he : e ∈ l.foldl (fun gs col => addToGroups gs (friendlyName col) col) gs) (hc : c ∈ e.2) :
    (∃ e' ∈ gs, c ∈ e'.2) ∨ c ∈ l := by
  induction l generalizing gs with
  | nil => exact Or.inl ⟨e, he, hc⟩
  | cons a l' ih =>
    simp only [List.foldl_cons] at he
    rcases ih _ he with ⟨e', he', hc'⟩ | hl
    · rcases addToGroups_snd_mem _ _ _ _ _ he' hc' with h1 | h2
      · exact Or.inl h1
      · exact Or.inr (h2 ▸ List.mem_cons_self _ _)
    · exact Or.inr (List.mem_cons_of_mem _ hl)

theorem violBool_eq_spec (inf sup : Option ℚ) (v : ℚ) :
    ((match inf with | some i => decide (v < i) | none => false) ||
     (match sup with | some s => decide (s < v) | none => false)) = specViolatesB inf sup v := by
  cases inf with
  | none =>
    cases sup with
    | none => simp [specViolatesB]
    | some s => by_cases h : v ≤ s <;> simp [specViolatesB, h, lt_iff_not_le]
  | some i =>
    cases sup with
    | none => by_cases h : i ≤ v <;> simp [specViolatesB, h, lt_iff_not_le]
    | some s =>
      by_cases h1 : i ≤ v <;> by_cases h2 : v ≤ s <;>
        simp [specViolatesB, h1, h2, lt_iff_not_le]

theorem qneg_eq (a : ℚ) : qneg a = -a :=
  (Rat.neg_def a).symm

theorem qofInt_eq (n : ℤ) : qofInt n = (n : ℚ) := by
  rw [qofInt, Rat.divInt_eq_div]
  simp

theorem qadd_eq (a b : ℚ) : qadd a b = a + b := by
  rw [qadd, Rat.divInt_eq_div]
  have ha : ((a.den : ℚ)) ≠ 0 := Nat.cast_ne_zero.mpr (Rat.den_ne_zero a)
  have hb : ((b.den : ℚ)) ≠ 0 := Nat.cast_ne_zero.mpr (Rat.den_ne_zero b)
  conv_rhs => rw [← Rat.num_div_den a, ← Rat.num_div_den b]
  push_cast
  field_simp
  try ring

theorem qsub_eq (a b : ℚ) : qsub a b = a - b := by
  rw [qsub, Rat.divInt_eq_div]
  have ha : ((a.den : ℚ)) ≠ 0 := Nat.cast_ne_zero.mpr (Rat.den_ne_zero a)
  have hb : ((b.den : ℚ)) ≠ 0 := Nat.cast_ne_zero.mpr (Rat.den_ne_zero b)
  conv_rhs => rw [← Rat.num_div_den a, ← Rat.num_div_den b]
  push_cast
  field_simp
  try ring

theorem qmul_eq (a b : ℚ) : qmul a b = a * b := by
  rw [qmul, Rat.divInt_eq_div]
  have ha : ((a.den : ℚ)) ≠ 0 := Nat.cast_ne_zero.mpr (Rat.den_ne_zero a)
  have hb : ((b.den : ℚ)) ≠ 0 := Nat.cast_ne_zero.mpr (Rat.den_ne_zero b)
  conv_rhs => rw [← Rat.num_div_den a, ← Rat.num_div_den b]
  push_cast
  field_simp
  try ring

theorem qdiv_eq (a b : ℚ) : qdiv a b = a / b := by
  rcases eq_or_ne b 0 with rfl | hb
  · simp [qdiv]
  · rw [qdiv, Rat.divInt_eq_div]
    have ha : ((a.den : ℚ)) ≠ 0 := Nat.cast_ne_zero.mpr (Rat.den_ne_zero a)
    have hbd : ((b.den : ℚ)) ≠ 0 := Nat.cast_ne_zero.mpr (Rat.den_ne_zero b)
    have hbn : ((b.num : ℚ)) ≠ 0 := by
      exact_mod_cast Rat.num_ne_zero.mpr hb
    conv_rhs => rw [← Rat.num_div_den a, ← Rat.num_div_den b]
    push_cast
    field_simp
    try ring

theorem qabs_eq (a : ℚ) : qabs a = |a| := by
  rw [qabs]
  by_cases h : a.num < 0
  · rw [if_pos h, qneg_eq, abs_of_neg]
    exact lt_of_not_le fun hle => absurd (Rat.num_nonneg.mpr hle) (not_le.mpr h)
  · rw [if_neg h, abs_of_nonneg]
    exact Rat.num_nonneg.mp (not_lt.mp h)

theorem qsum_eq (l : List ℚ) : qsum l = l.sum := by
  have key : ∀ init : ℚ, l.foldl qadd init = l.foldl (· + ·) init := by
    induction l with
    | nil => intro init; rfl
    | cons a as ih =>
      intro init
      simp only [List.foldl_cons, qadd_eq]
      exact ih _
  rw [qsum, key, List.sum_eq_foldl]

theorem pyListMin_eq (v : ℚ) (vs : List ℚ) : pyListMin v vs = vs.foldl min v := by
  induction vs generalizing v with
  | nil => rfl
  | cons a as ih =>
    show List.foldl _ (if a < v then a else v) as = List.foldl min (min v a) as
    rw [show (if a < v then a else v) = min v a by
      by_cases h : a < v
      · rw [if_pos h, min_eq_right (le_of_lt h)]
      · rw [if_neg h, min_eq_left (not_lt.mp h)]]
    exact ih _

theorem pyListMax_eq (v : ℚ) (vs : List ℚ) : pyListMax v vs = vs.foldl max v := by
  induction vs generalizing v with
  | nil => rfl
  | cons a as ih =>
    show List.foldl _ (if v < a then a else v) as = List.foldl max (max v a) as
    rw [show (if v < a then a else v) = max v a by
      by_cases h : v < a
      · rw [if_pos h, max_eq_right (le_of_lt h)]
      · rw [if_neg h, max_eq_left (not_lt.mp h)]]
    exact ih _

/-! ## Claim theorems -/

/-- Claim C3: for every list of values and pair of limits, check_compliance
returns not-applicable (none) exactly when both the lower and the upper
limit are null; otherwise it returns the count of values v with
v < lower or v > upper, a null bound constraining nothing on its side
(stated via specViolatesB, the spec's "fails lower <= v <= upper" wording);
in particular check_compliance(values, null, null) is always
not-applicable, and the surface renderer turns that result into the
distinct "no existe ... aplicable para este parámetro" clause rather than
a zero-violation clause. -/
theorem check_compliance_not_applicable :
    (∀ (vals : List ℚ) (inf sup : Option ℚ),
        check_compliance vals inf sup = none ↔ inf = none ∧ sup = none) ∧
    (∀ vals : List ℚ, check_compliance vals none none = none) ∧
    (∀ (vals : List ℚ) (inf sup : Option ℚ), inf ≠ none ∨ sup ≠ none →
        check_compliance vals inf sup = some (vals.countP (specViolatesB inf sup))) ∧
    (∀ (g : Grupo) (vals : List ℚ) (n : ℕ) (key : String),
        g.limits ("lim_inf_" ++ key) = none → g.limits ("lim_sup_" ++ key) = none →
        ∃ r, surfaceLoopClause g vals n key = " Cabe mencionar que no existe un " ++ r) := by
  refine ⟨?_, ?_, ?_, ?_⟩
  · intro vals inf sup
    cases inf <;> cases sup <;> simp [check_compliance]
  · intro vals
    rfl
  · intro vals inf sup h
    rcases inf with _ | i <;> rcases sup with _ | s
    · exfalso
      rcases h with h | h <;> exact h rfl
    · rw [List.countP_eq_length_filter]
      exact congrArg (fun l => some l.length)
        (List.filter_congr fun v _ => violBool_eq_spec none (some s) v)
    · rw [List.countP_eq_length_filter]
      exact congrArg (fun l => some l.length)
        (List.filter_congr fun v _ => violBool_eq_spec (some i) none v)
    · rw [List.countP_eq_length_filter]
      exact congrArg (fun l => some l.length)
        (List.filter_congr fun v _ => violBool_eq_spec (some i) (some s) v)
  · intro g vals n key h1 h2
    refine ⟨(if containsSub key "eca_2017" then "ECA 2017"
        else if containsSub key "eca_2008" then "ECA 2008" else "LGA") ++
      (" para agua para la categoría " ++ ((regMetaGet key).2 ++
        (" (" ++ ((regMetaGet key).1 ++ ") aplicable para este parámetro.")))), ?_⟩
    simp [surfaceLoopClause, h1, h2, check_compliance, String.append_assoc]

/-- Witness for C3: with a null lower limit and upper limit 10 the check is
applicable and counts the spec-side violations. -/
theorem check_compliance_not_applicable_witness :
    ((none : Option ℚ) ≠ none ∨ (some (10 : ℚ)) ≠ none) ∧
    check_compliance [5, 1, 15] none (some 10) =
      some (([5, 1, 15] : List ℚ).countP (specViolatesB none (some 10))) :=
  ⟨Or.inr (by decide),
    check_compliance_not_applicable.2.2.1 [5, 1, 15] none (some 10) (Or.inr (by decide))⟩

/-- Claim C10: get_regulation_columns keeps exactly the columns whose name
starts with 'lim_', 'ISGQ' or 'PEL'; a sediment threshold column written
with the 'ISQG' spelling (such as 'ISQG_freshwater') is never returned and
therefore never appears in any regulation group, even though
generate_text_sediments reads its threshold from the 'ISQG_'-prefixed
column name — so a group whose only sediment data sits in an
'ISGQ'-spelled column still renders the shared not-applicable clause. -/
theorem isqg_spelling_mismatch :
    (∀ col : String, (col ∈ get_regulation_columns [col]) ↔ isRegulationCol col = true) ∧
    (∀ cols : List String, "ISQG_freshwater" ∉ get_regulation_columns cols) ∧
    (∀ cols : List String, ∀ e ∈ get_regulation_groups cols, "ISQG_freshwater" ∉ e.2) ∧
    sedimentsIsqgKey "freshwater" = "ISQG_freshwater" ∧
    isRegulationCol "ISQG_freshwater" = false ∧
    isRegulationCol "ISGQ_freshwater" = true ∧
    (∀ (g : Grupo) (sel : List String),
        (sel.any fun c => containsSub c "freshwater") = true →
        g.limits "ISQG_freshwater" = none → g.limits "PEL_freshwater" = none →
        generate_text_sediments g sel =
          (get_base_statistics_text g).1 ++
            " Cabe mencionar que no existe un ISQG ni un PEL para sedimentos de agua dulce aplicable para este parámetro.") := by
  have hnotreg : isRegulationCol "ISQG_freshwater" = false := by decide
  refine ⟨?_, ?_, ?_, rfl, hnotreg, by decide, ?_⟩
  · intro col
    simp [get_regulation_columns, List.mem_filter]
  · intro cols hmem
    rw [get_regulation_columns, List.mem_filter] at hmem
    rw [hnotreg] at hmem
    exact absurd hmem.2 (by decide)
  · intro cols e he hmem
    rcases foldl_snd_mem _ _ _ _ he hmem with ⟨e', he', _⟩ | hin
    · exact absurd he' (List.not_mem_nil e')
    · rw [get_regulation_columns, List.mem_filter] at hin
      rw [hnotreg] at hin
      exact absurd hin.2 (by decide)
  · intro g sel hfresh h1 h2
    simp only [generate_text_sediments, hfresh, if_pos, sedimentsIsqgKey, sedimentsPelKey]
    rw [show ("ISQG_" ++ "freshwater" : String) = "ISQG_freshwater" from rfl,
      show ("PEL_" ++ "freshwater" : String) = "PEL_freshwater" from rfl, h1, h2]
    show (get_base_statistics_text g).1 ++ _ ++ _ ++ _ = _
    simp only [String.append_assoc]
    congr 1

/-- Witness for C10: on the all-null sediments group with the freshwater
selection, the renderer emits the shared not-applicable clause. -/
theorem isqg_spelling_mismatch_witness :
    ((selSediments.any fun c => containsSub c "freshwater") = true) ∧
    gNoLimits.limits "ISQG_freshwater" = none ∧
    gNoLimits.limits "PEL_freshwater" = none ∧
    generate_text_sediments gNoLimits selSediments =
      (get_base_statistics_text gNoLimits).1 ++
        " Cabe mencionar que no existe un ISQG ni un PEL para sedimentos de agua dulce aplicable para este parámetro." :=
  ⟨by decide, rfl, rfl,
    isqg_spelling_mismatch.2.2.2.2.2.2 gNoLimits selSediments (by decide) rfl rfl⟩

/-- Claim C7: for every active standard key whose limit columns are absent
from the group, the bound lookups yield null and each renderer emits its
not-applicable clause; lookups of missing threshold keys are total
functions (Grupo.limits) in this embedding, so no lookup can fail — the
designed degradation path.  The conjuncts cover the surface loop, the three
effluents standards and the sediments module. -/
theorem missing_threshold_defaults :
    (∀ (g : Grupo) (vals : List ℚ) (n : ℕ) (key : String),
        g.limits ("lim_inf_" ++ key) = none → g.limits ("lim_sup_" ++ key) = none →
        surfaceLoopClause g vals n key =
          " Cabe mencionar que no existe un " ++
            (if containsSub key "eca_2017" then "ECA 2017"
             else if containsSub key "eca_2008" then "ECA 2008" else "LGA") ++
            " para agua para la categoría " ++ (regMetaGet key).2 ++ " (" ++
            (regMetaGet key).1 ++ ") aplicable para este parámetro.") ∧
    (∀ (g : Grupo) (vals : List ℚ) (n : ℕ),
        g.limits "lim_inf_nmp_minero" = none → g.limits "lim_sup_nmp_minero" = none →
        nmpClause g vals n =
          " Cabe mencionar que no existe un NMP 1996 para efluentes minero-metalúrgicos aplicable para este parámetro.") ∧
    (∀ (g : Grupo) (vals : List ℚ) (n : ℕ) (prior : Bool),
        g.limits "lim_inf_lmp_2010_minero" = none → g.limits "lim_sup_lmp_2010_minero" = none →
        lmpMinClause g vals n prior =
          (if prior then " Por otro lado, " else " ") ++ (if prior then "no" else "No") ++
            " existe un LMP 2010 para efluentes minero-metalúrgicos (valor en cualquier momento) aplicable para este parámetro.") ∧
    (∀ (g : Grupo) (vals : List ℚ) (n : ℕ) (prior : Bool),
        g.limits "lim_inf_lmp_2010_domestico" = none → g.limits "lim_sup_lmp_2010_domestico" = none →
        lmpDomClause g vals n prior =
          (if prior then " Por otro lado, " else " ") ++ (if prior then "no" else "No") ++
            " existe un valor en los LMP 2010 para efluentes domésticos o municipales aplicable para este parámetro.") ∧
    (∀ (g : Grupo) (sel : List String),
        (sel.any fun c => containsSub c "freshwater") = true →
        g.limits "ISQG_freshwater" = none → g.limits "PEL_freshwater" = none →
        generate_text_sediments g sel =
          (get_base_statistics_text g).1 ++
            " Cabe mencionar que no existe un ISQG ni un PEL para sedimentos de agua dulce aplicable para este parámetro.") := by
  refine ⟨?_, ?_, ?_, ?_, ?_⟩
  · intro g vals n key h1 h2
    simp [surfaceLoopClause, h1, h2, check_compliance, String.append_assoc]
  · intro g vals n h1 h2
    simp only [nmpClause, get_lims]
    rw [show ("lim_inf_" ++ "nmp_minero" : String) = "lim_inf_nmp_minero" from rfl,
      show ("lim_sup_" ++ "nmp_minero" : String) = "lim_sup_nmp_minero" from rfl, h1, h2]
    rfl
  · intro g vals n prior h1 h2
    simp only [lmpMinClause, get_lims]
    rw [show ("lim_inf_" ++ "lmp_2010_minero" : String) = "lim_inf_lmp_2010_minero" from rfl,
      show ("lim_sup_" ++ "lmp_2010_minero" : String) = "lim_sup_lmp_2010_minero" from rfl, h1, h2]
    rfl
  · intro g vals n prior h1 h2
    simp only [lmpDomClause, get_lims]
    rw [show ("lim_inf_" ++ "lmp_2010_domestico" : String) = "lim_inf_lmp_2010_domestico" from rfl,
      show ("lim_sup_" ++ "lmp_2010_domestico" : String) = "lim_sup_lmp_2010_domestico" from rfl, h1, h2]
    rfl
  · intro g sel hfresh h1 h2
    simp only [generate_text_sediments, hfresh, if_pos, sedimentsIsqgKey, sedimentsPelKey]
    rw [show ("ISQG_" ++ "freshwater" : String) = "ISQG_freshwater" from rfl,
      show ("PEL_" ++ "freshwater" : String) = "PEL_freshwater" from rfl, h1, h2]
    show (get_base_statistics_text g).1 ++ _ ++ _ ++ _ = _
    simp only [String.append_assoc]
    congr 1

/-- Witness for C7: on the effluents group every lmp_2010_domestico column
is missing, so the doméstico clause degrades to its not-applicable text. -/
theorem missing_threshold_defaults_witness :
    gEffluents.limits "lim_inf_lmp_2010_domestico" = none ∧
    gEffluents.limits "lim_sup_lmp_2010_domestico" = none ∧
    lmpDomClause gEffluents [5, 1, 15] 3 true =
      (if true then " Por otro lado, " else " ") ++ (if true then "no" else "No") ++
        " existe un valor en los LMP 2010 para efluentes domésticos o municipales aplicable para este parámetro." :=
  ⟨by decide, by decide,
    missing_threshold_defaults.2.2.2.1 gEffluents [5, 1, 15] 3 true (by decide) (by decide)⟩

/-- Claim C2: when both category keys eca_2017_3d1 and eca_2017_3d2 are
active and all four of their bounds are null, generate_text_surface emits
exactly one combined "no existe" sentence for the pair right after the base
sentence, and the general per-key loop runs only over the remaining active
keys — the combined path consumes both keys, so no separate per-category
sentence is produced for them. -/
theorem surface_combined_clause_single (g : Grupo) (sel : List String)
    (h1 : "eca_2017_3d1" ∈ activeKeys sel) (h2 : "eca_2017_3d2" ∈ activeKeys sel)
    (i1 : g.limits "lim_inf_eca_2017_3d1" = none) (s1 : g.limits "lim_sup_eca_2017_3d1" = none)
    (i2 : g.limits "lim_inf_eca_2017_3d2" = none) (s2 : g.limits "lim_sup_eca_2017_3d2" = none) :
    generate_text_surface g sel =
      String.join ((get_base_statistics_text g).1 ::
        " Cabe mencionar que no existe un ECA 2017 para agua para la categoría 3 – D1 (riego de vegetales) y 3 - D2 (bebida de animales) aplicable para este parámetro." ::
        (((activeKeys sel).filter fun k => k ≠ "eca_2017_3d1" ∧ k ≠ "eca_2017_3d2").map
          (surfaceLoopClause g (get_base_statistics_text g).2
            (get_base_statistics_text g).2.length))) := by
  have hcombo : surfaceComboClause g (get_base_statistics_text g).2
      (get_base_statistics_text g).2.length =
      " Cabe mencionar que no existe un ECA 2017 para agua para la categoría 3 – D1 (riego de vegetales) y 3 - D2 (bebida de animales) aplicable para este parámetro." := by
    simp only [surfaceComboClause]
    rw [i1, s1, i2, s2]
    rw [if_pos ⟨rfl, rfl, rfl, rfl⟩]
  have hfilter : ((activeKeys sel).filter fun k =>
        !((["eca_2017_3d1", "eca_2017_3d2"] : List String).contains k)) =
      ((activeKeys sel).filter fun k => k ≠ "eca_2017_3d1" ∧ k ≠ "eca_2017_3d2") := by
    refine List.filter_congr fun k _ => ?_
    by_cases ha : k = "eca_2017_3d1" <;> by_cases hb : k = "eca_2017_3d2" <;>
      simp [ha, hb, List.contains]
  simp only [generate_text_surface, h1, h2, decide_True, Bool.and_self, if_pos, hcombo, hfilter]
  rfl

/-- Witness for C2: the concrete all-null combo group with one extra active
key renders the single combined sentence followed by the 1-A1 clause. -/
theorem surface_combined_clause_single_witness :
    "eca_2017_3d1" ∈ activeKeys selCombo ∧ "eca_2017_3d2" ∈ activeKeys selCombo ∧
    gNoLimits.limits "lim_inf_eca_2017_3d1" = none ∧
    generate_text_surface gNoLimits selCombo =
      String.join ((get_base_statistics_text gNoLimits).1 ::
        " Cabe mencionar que no existe un ECA 2017 para agua para la categoría 3 – D1 (riego de vegetales) y 3 - D2 (bebida de animales) aplicable para este parámetro." ::
        (((activeKeys selCombo).filter fun k => k ≠ "eca_2017_3d1" ∧ k ≠ "eca_2017_3d2").map
          (surfaceLoopClause gNoLimits (get_base_statistics_text gNoLimits).2
            (get_base_statistics_text gNoLimits).2.length))) :=
  ⟨by decide, by decide, rfl,
    surface_combined_clause_single gNoLimits selCombo (by decide) (by decide) rfl rfl rfl rfl⟩

/-- Claim C1 (amended): for every raw cell whose string form contains "<"
and whose remainder parses as x, clean_data gives the row the numeric value
x/2, and rows whose remainder fails to parse get a null value and are
dropped; however, contrary to the claim as stated, no detection-limit flag
is recorded — the cleaned rows carry no es_LD column, so the flag list the
text generator later derives for any pipeline group is all-false. -/
theorem clean_data_below_detection_amended :
    (∀ (c : Cell) (x : ℚ), containsSub (cellStr c) "<" = true →
        parseFloat (strReplace (cellStr c) "<" "") = some x →
        cleanCell c = some (x / 2)) ∧
    (∀ c : Cell, containsSub (cellStr c) "<" = true →
        parseFloat (strReplace (cellStr c) "<" "") = none →
        cleanCell c = none) ∧
    (∀ (df : List RawRow) (r : RawRow), cleanCell r.valor = none →
        clean_data (r :: df) = clean_data df) ∧
    (∀ rows : List MergedRow,
        esLDListOf (grupoOfMerged rows) = rows.map fun _ => false) := by
  refine ⟨?_, ?_, ?_, ?_⟩
  · intro c x h1 h2
    rw [cleanCell.eq_def, if_pos h1, h2]
    show some (qdiv x (qofInt 2)) = _
    rw [qdiv_eq, qofInt_eq]
    norm_num
  · intro c h1 h2
    rw [cleanCell.eq_def, if_pos h1, h2]
    rfl
  · intro df r h
    rw [clean_data, clean_data, List.filterMap_cons, h]
    rfl
  · intro rows
    simp [esLDListOf, grupoOfMerged, List.map_map]

/-- Counterexample to claim C1 as stated: cleaning the raw row whose cell
is "<2" yields the numeric value 1 = 2/2, but the detection-limit flag of
the resulting pipeline group is false, not true — clean_data records no
es_LD column at all. -/
theorem clean_data_detection_flag_cex :
    (clean_data [rawRowLD]).map (·.valor) = [1] ∧
    (grupoOfMerged (merge_data (clean_data [rawRowLD]) [])).es_LD = none ∧
    esLDListOf (grupoOfMerged (merge_data (clean_data [rawRowLD]) [])) = [false] ∧
    esLDListOf (grupoOfMerged (merge_data (clean_data [rawRowLD]) [])) ≠ [true] :=
  ⟨by decide, rfl, by decide, by decide⟩

/-- Witness for C1 (amended): the cell "<2" parses to 2 and cleans to 2/2. -/
theorem clean_data_below_detection_amended_witness :
    containsSub (cellStr (Cell.str "<2")) "<" = true ∧
    parseFloat (strReplace (cellStr (Cell.str "<2")) "<" "") = some 2 ∧
    cleanCell (Cell.str "<2") = some ((2 : ℚ) / 2) :=
  ⟨by decide, by decide,
    clean_data_below_detection_amended.1 (Cell.str "<2") 2 (by decide) (by decide)⟩

/-- Claim C5 (amended): when every value in a parameter group is below the
detection limit, the base statistics sentence lists the distinct
detection-limit thresholds encountered, de-duplicated, sorted strictly
ascending, each formatted as Python str() of the parsed float with the
decimal point replaced by a comma — so raw thresholds 1.0, 1.0, 2.0 are
listed as "1,0, 2,0", not "1, 2" as the claim stated. -/
theorem below_detection_listing_amended (g : Grupo) (es : List Bool) (raws : List String)
    (fs : List ℚ)
    (hes : g.es_LD = some es) (hall : es.all (fun b => b) = true)
    (hraw : g.valor_raw = some raws)
    (hparse : (ldRawValues raws es).mapM parseFloat = some fs) :
    (get_base_statistics_text g).1 =
      "Como se observa en el gráfico, los valores de " ++ g.parametro ++
        " registrados en todas las estaciones " ++
        resumenLD ((sortedDedupRat fs).map fun q => strReplace (pyStrFloat q) "." ",")
          g.unidad ++ "." ∧
    (sortedDedupRat fs).Sorted (· < ·) ∧
    (∀ q : ℚ, q ∈ sortedDedupRat fs ↔ q ∈ fs) := by
  have h1 : esLDListOf g = es := by rw [esLDListOf, hes]
  have h2 : rawValuesOf g = raws := by rw [rawValuesOf, hraw]
  have h3 : ldUnicos (ldRawValues raws es) =
      (sortedDedupRat fs).map fun q => strReplace (pyStrFloat q) "." "," := by
    simp only [ldUnicos, hparse]
  refine ⟨?_, ?_, ?_⟩
  · simp only [get_base_statistics_text, h1, h2, h3, if_pos hall]
  · exact List.Sorted.lt_of_le (List.sorted_insertionSort _ _)
      ((List.perm_insertionSort _ _).nodup_iff.mpr (List.nodup_dedup fs))
  · intro q
    exact ((List.perm_insertionSort _ _).mem_iff).trans List.mem_dedup

/-- Counterexample to claim C5 as stated: with the raw thresholds
"<1", "<1", "<2" the sentence lists "1,0, 2,0" (Python str of the parsed
floats, comma decimal separator), not "1, 2". -/
theorem below_detection_listing_cex :
    (get_base_statistics_text gBelowLD).1 =
      "Como se observa en el gráfico, los valores de Plomo registrados en todas las estaciones se encontraron por debajo del límite de detección (1,0, 2,0 mg/L)." ∧
    (get_base_statistics_text gBelowLD).1 ≠
      "Como se observa en el gráfico, los valores de Plomo registrados en todas las estaciones se encontraron por debajo del límite de detección (1, 2 mg/L)." :=
  ⟨by decide, by decide⟩

/-- Witness for C5 (amended) at the concrete all-below-detection group. -/
theorem below_detection_listing_amended_witness :
    (([true, true, true] : List Bool).all (fun b => b) = true) ∧
    ((ldRawValues ["<1", "<1", "<2"] [true, true, true]).mapM parseFloat =
      some [1, 1, 2]) ∧
    (get_base_statistics_text gBelowLD).1 =
      "Como se observa en el gráfico, los valores de " ++ gBelowLD.parametro ++
        " registrados en todas las estaciones " ++
        resumenLD ((sortedDedupRat [1, 1, 2]).map fun q => strReplace (pyStrFloat q) "." ",")
          gBelowLD.unidad ++ "." :=
  ⟨by decide, by decide,
    (below_detection_listing_amended gBelowLD [true, true, true] ["<1", "<1", "<2"] [1, 1, 2]
      rfl (by decide) rfl (by decide)).1⟩

/-- Claim C9: the clean_data → merge_data pipeline produces rows with no
es_LD and no valor_raw column (the pipeline group has none for both),
get_base_statistics_text treats the absent es_LD column as False for every
row, and consequently every nonempty pipeline group takes the min/max/mean
branch of the base statistics sentence — never the all-below-detection or
mixed branches — even when the raw input contained "<x" cells. -/
theorem pipeline_no_detection_branch (df : List RawRow) (eca : List EcaRow) (param : String)
    (rows : List MergedRow)
    (_hrows : rows = (merge_data (clean_data df) eca).filter fun r => r.parametro == param)
    (hne : rows.length ≠ 0) :
    (grupoOfMerged rows).es_LD = none ∧
    (grupoOfMerged rows).valor_raw = none ∧
    esLDListOf (grupoOfMerged rows) = rows.map (fun _ => false) ∧
    (get_base_statistics_text (grupoOfMerged rows)).1 =
      "Como se observa en el gráfico, los valores de " ++ (grupoOfMerged rows).parametro ++
        " registrados en todas las estaciones " ++
        resumenMinMax (statsTriple (grupoOfMerged rows).valores).1
          (statsTriple (grupoOfMerged rows).valores).2.1
          (statsTriple (grupoOfMerged rows).valores).2.2
          (grupoOfMerged rows).unidad ++ "." := by
  obtain ⟨r, rs, rfl⟩ : ∃ r rs, rows = r :: rs := by
    cases rows with
    | nil => exact absurd rfl hne
    | cons r rs => exact ⟨r, rs, rfl⟩
  refine ⟨rfl, rfl, by simp [esLDListOf, grupoOfMerged], ?_⟩
  have hes : esLDListOf (grupoOfMerged (r :: rs)) = false :: rs.map (fun _ => false) := by
    simp [esLDListOf, grupoOfMerged]
  simp only [get_base_statistics_text, hes]
  rw [if_neg (by simp), if_pos (by simp)]

/-- Witness for C9: a two-row pipeline (one "<2" cell, one numeric cell)
renders the min/max/mean sentence. -/
theorem pipeline_no_detection_branch_witness :
    (((merge_data (clean_data dfMixed) []).filter fun r =>
        r.parametro == "Plomo").length ≠ 0) ∧
    (get_base_statistics_text (grupoOfMerged ((merge_data (clean_data dfMixed) []).filter
        fun r => r.parametro == "Plomo"))).1 =
      "Como se observa en el gráfico, los valores de " ++
        (grupoOfMerged ((merge_data (clean_data dfMixed) []).filter
          fun r => r.parametro == "Plomo")).parametro ++
        " registrados en todas las estaciones " ++
        resumenMinMax
          (statsTriple (grupoOfMerged ((merge_data (clean_data dfMixed) []).filter
            fun r => r.parametro == "Plomo")).valores).1
          (statsTriple (grupoOfMerged ((merge_data (clean_data dfMixed) []).filter
            fun r => r.parametro == "Plomo")).valores).2.1
          (statsTriple (grupoOfMerged ((merge_data (clean_data dfMixed) []).filter
            fun r => r.parametro == "Plomo")).valores).2.2
          (grupoOfMerged ((merge_data (clean_data dfMixed) []).filter
            fun r => r.parametro == "Plomo")).unidad ++ "." :=
  ⟨by decide,
    (pipeline_no_detection_branch dfMixed [] "Plomo" _ rfl (by decide)).2.2.2⟩

theorem nmpClause_first (g : Grupo) (vals : List ℚ) (n : ℕ) :
    firstClauseShape (nmpClause g vals n) := by
  rw [firstClauseShape]
  simp only [nmpClause, get_lims]
  cases hci : check_inc (g.limits ("lim_inf_" ++ "nmp_minero"))
      (g.limits ("lim_sup_" ++ "nmp_minero")) vals with
  | none => exact ⟨rfl, rfl⟩
  | some n_inc =>
    dsimp only
    by_cases h0 : n_inc = 0
    · rw [if_pos h0]
      exact ⟨rfl, rfl⟩
    · by_cases hn : n_inc = n
      · rw [if_neg h0, if_pos hn]
        exact ⟨rfl, rfl⟩
      · rw [if_neg h0, if_neg hn]
        exact ⟨rfl, rfl⟩

theorem lmpMinClause_first (g : Grupo) (vals : List ℚ) (n : ℕ) :
    firstClauseShape (lmpMinClause g vals n false) := by
  rw [firstClauseShape]
  simp only [lmpMinClause, get_lims]
  cases hci : check_inc (g.limits ("lim_inf_" ++ "lmp_2010_minero"))
      (g.limits ("lim_sup_" ++ "lmp_2010_minero")) vals with
  | none => exact ⟨rfl, rfl⟩
  | some n_inc =>
    dsimp only
    by_cases h0 : n_inc = 0
    · rw [if_pos h0]
      exact ⟨rfl, rfl⟩
    · by_cases hn : n_inc = n
      · rw [if_neg h0, if_pos hn]
        exact ⟨rfl, rfl⟩
      · rw [if_neg h0, if_neg hn]
        exact ⟨rfl, rfl⟩

theorem lmpMinClause_later (g : Grupo) (vals : List ℚ) (n : ℕ) :
    laterClauseShape (lmpMinClause g vals n true) := by
  rw [laterClauseShape]
  simp only [lmpMinClause, get_lims]
  cases hci : check_inc (g.limits ("lim_inf_" ++ "lmp_2010_minero"))
      (g.limits ("lim_sup_" ++ "lmp_2010_minero")) vals with
  | none => rfl
  | some n_inc =>
    dsimp only
    by_cases h0 : n_inc = 0
    · rw [if_pos h0]
      rfl
    · by_cases hn : n_inc = n
      · rw [if_neg h0, if_pos hn]
        rfl
      · rw [if_neg h0, if_neg hn]
        rfl

theorem lmpDomClause_first (g : Grupo) (vals : List ℚ) (n : ℕ) :
    firstClauseShape (lmpDomClause g vals n false) := by
  rw [firstClauseShape]
  simp only [lmpDomClause, get_lims]
  cases hci : check_inc (g.limits ("lim_inf_" ++ "lmp_2010_domestico"))
      (g.limits ("lim_sup_" ++ "lmp_2010_domestico")) vals with
  | none => exact ⟨rfl, rfl⟩
  | some n_inc =>
    dsimp only
    by_cases h0 : n_inc = 0
    · rw [if_pos h0]
      exact ⟨rfl, rfl⟩
    · by_cases hn : n_inc = n
      · rw [if_neg h0, if_pos hn]
        exact ⟨rfl, rfl⟩
      · rw [if_neg h0, if_neg hn]
        exact ⟨rfl, rfl⟩

theorem lmpDomClause_later (g : Grupo) (vals : List ℚ) (n : ℕ) :
    laterClauseShape (lmpDomClause g vals n true) := by
  rw [laterClauseShape]
  simp only [lmpDomClause, get_lims]
  cases hci : check_inc (g.limits ("lim_inf_" ++ "lmp_2010_domestico"))
      (g.limits ("lim_sup_" ++ "lmp_2010_domestico")) vals with
  | none => rfl
  | some n_inc =>
    dsimp only
    by_cases h0 : n_inc = 0
    · rw [if_pos h0]
      rfl
    · by_cases hn : n_inc = n
      · rw [if_neg h0, if_pos hn]
        rfl
      · rw [if_neg h0, if_neg hn]
        rfl

theorem clauses_ok_one (c : String) (h : firstClauseShape c) :
    (∀ c', ([c] : List String).head? = some c' → firstClauseShape c') ∧
    (∀ c' ∈ ([c] : List String).tail, laterClauseShape c') :=
  ⟨fun _ hc => (Option.some.inj hc) ▸ h, fun c' hc => absurd hc (List.not_mem_nil c')⟩

theorem clauses_ok_two (c d : String) (h1 : firstClauseShape c) (h2 : laterClauseShape d) :
    (∀ c', ([c, d] : List String).head? = some c' → firstClauseShape c') ∧
    (∀ c' ∈ ([c, d] : List String).tail, laterClauseShape c') := by
  refine ⟨fun _ hc => (Option.some.inj hc) ▸ h1, fun c' hc => ?_⟩
  rw [List.tail_cons, List.mem_singleton] at hc
  subst hc
  exact h2

theorem clauses_ok_three (c d e : String) (h1 : firstClauseShape c)
    (h2 : laterClauseShape d) (h3 : laterClauseShape e) :
    (∀ c', ([c, d, e] : List String).head? = some c' → firstClauseShape c') ∧
    (∀ c' ∈ ([c, d, e] : List String).tail, laterClauseShape c') := by
  refine ⟨fun _ hc => (Option.some.inj hc) ▸ h1, fun c' hc => ?_⟩
  rw [List.tail_cons, List.mem_cons, List.mem_singleton] at hc
  rcases hc with hc | hc <;> subst hc
  · exact h2
  · exact h3

/-- Claim C6: in the effluents renderer, for every selection of active
standards, the first emitted comparison clause carries no "Por otro lado"
connective and starts (after its single leading space) with a capital
"Al"/"No"/"Cabe", and every subsequent clause of the paragraph begins with
" Por otro lado, " followed by a lower-case "al"/"no" — the has-prior-clause
state is threaded through effluentsClauses, which updates it after each
emitted clause. -/
theorem effluents_connective_discipline (g : Grupo) (vals : List ℚ) (n : ℕ)
    (sel : List String) :
    (∀ c, (effluentsClauses g vals n sel).head? = some c → firstClauseShape c) ∧
    (∀ c ∈ (effluentsClauses g vals n sel).tail, laterClauseShape c) := by
  simp only [effluentsClauses]
  cases hb1 : containsSub (String.intercalate "," sel) "nmp_minero" <;>
    cases hb2 : containsSub (String.intercalate "," sel) "lmp_2010_minero" <;>
      cases hb3 : containsSub (String.intercalate "," sel) "lmp_2010_domestico" <;>
        simp only [Bool.false_eq_true, if_false, if_true, Bool.false_or, Bool.true_or,
          Bool.or_false, Bool.or_true, List.nil_append, List.append_nil, List.cons_append,
          List.singleton_append]
  · exact ⟨fun c hc => absurd hc (by simp), fun c hc => absurd hc (by simp)⟩
  · exact clauses_ok_one _ (lmpDomClause_first g vals n)
  · exact clauses_ok_one _ (lmpMinClause_first g vals n)
  · exact clauses_ok_two _ _ (lmpMinClause_first g vals n) (lmpDomClause_later g vals n)
  · exact clauses_ok_one _ (nmpClause_first g vals n)
  · exact clauses_ok_two _ _ (nmpClause_first g vals n) (lmpDomClause_later g vals n)
  · exact clauses_ok_two _ _ (nmpClause_first g vals n) (lmpMinClause_later g vals n)
  · exact clauses_ok_three _ _ _ (nmpClause_first g vals n) (lmpMinClause_later g vals n)
      (lmpDomClause_later g vals n)

/-- Witness for C6: in the concrete effluents run (NMP then LMP minero),
the second clause starts with " Por otro lado, " and a lower-case word. -/
theorem effluents_connective_discipline_witness :
    laterClauseShape (lmpMinClause gEffluents [5, 1, 15] 3 true) :=
  (effluents_connective_discipline gEffluents [5, 1, 15] 3 selEffluents).2
    (lmpMinClause gEffluents [5, 1, 15] 3 true) (by decide)

/-- Claim C4 (amended): the non-compliance percentage is Python
round(100 * violation_count / total_count, 2) — round-half-to-even, not
standard half-up rounding — in the effluents and sediments paths (and the
surface combined path, exercised concretely below), while the surface
general per-key loop rounds the same quotient to 0 decimals; rendering goes
through str(), so 1 violation out of 3 records renders as 33,33 % in the
2-decimal paths and as 33,0 % (not 33 %) in the surface 0-decimal path. -/
theorem percentage_rounding_amended :
    (∀ (a : ℤ) (b : ℕ), qdiv (qofInt a) (qofInt b) = (a : ℚ) / (b : ℚ)) ∧
    (∀ (g : Grupo) (vals : List ℚ) (n_total : ℕ) (key : String) (inc : ℕ),
        check_compliance vals (g.limits ("lim_inf_" ++ key)) (g.limits ("lim_sup_" ++ key)) =
          some inc →
        inc ≠ 0 → inc ≠ n_total →
        surfaceLoopClause g vals n_total key =
          " Al comparar los resultados obtenidos con el " ++
            (if containsSub key "eca_2017" then "ECA 2017"
             else if containsSub key "eca_2008" then "ECA 2008" else "LGA") ++
            " para agua para la categoría " ++ (regMetaGet key).2 ++ " (" ++
            format_limits (g.limits ("lim_inf_" ++ key)) (g.limits ("lim_sup_" ++ key)) ++
            " " ++ g.unidad ++ "), se observa que " ++ toString inc ++ " (" ++
            format_percent (some (pyRound 0 (qdiv (qofInt (100 * inc)) (qofInt n_total)))) ++
            " %) de los registros no cumplen con el valor establecido.") ∧
    (∀ (g : Grupo) (vals : List ℚ) (n_total : ℕ) (prior : Bool) (inc : ℕ),
        check_inc (get_lims g "lmp_2010_minero").1 (get_lims g "lmp_2010_minero").2 vals =
          some inc →
        inc ≠ 0 → inc ≠ n_total →
        lmpMinClause g vals n_total prior =
          (if prior then " Por otro lado, " else " ") ++ (if prior then "al" else "Al") ++
            " comparar los resultados obtenidos con el LMP 2010 para efluentes minero-metalúrgicos (" ++
            fmt_lims (get_lims g "lmp_2010_minero").1 (get_lims g "lmp_2010_minero").2 ++
            " " ++ g.unidad ++ "), se observa que " ++ toString inc ++ " (" ++
            format_percent (some (pyRound 2 (qdiv (qofInt (100 * inc)) (qofInt n_total)))) ++
            " %) de los registros no cumplen con el valor establecido.") ∧
    (∀ (vals : List ℚ) (u : String) (lv : ℚ) (name : String) (cnt : ℕ),
        (vals.filter fun v => decide (lv < v)).length = cnt →
        cnt ≠ 0 → cnt ≠ vals.length →
        comparar vals u (some lv) name =
          some (" Al comparar los resultados obtenidos con el " ++ name ++ " (" ++
            strReplace (pyStrFloat lv) "." "," ++ " " ++ u ++ "), se observa que " ++
            toString cnt ++ " (" ++
            format_percent (some (pyRound 2 (qdiv (qofInt (100 * cnt)) (qofInt vals.length)))) ++
            " %) de los registros exceden el valor establecido.")) ∧
    format_percent (some (pyRound 2 (qdiv (qofInt 100) (qofInt 3)))) = "33,33" ∧
    format_percent (some (pyRound 0 (qdiv (qofInt 100) (qofInt 3)))) = "33,0" ∧
    format_percent (some (pyRound 2 (qdiv (qofInt 100) (qofInt 32)))) = "3,12" ∧
    containsSub (generate_text_surface gComboMixed selComboPair) "(33,33 %)" = true ∧
    containsSub (generate_text_surface gComboMixed selComboPair) "(66,67 %)" = true := by
  refine ⟨?_, ?_, ?_, ?_, by decide, by decide, by decide, by decide, by decide⟩
  · intro a b
    rw [qdiv_eq, qofInt_eq, qofInt_eq]
    norm_cast
  · intro g vals n_total key inc hci h0 hn
    simp only [surfaceLoopClause]
    rw [hci]
    dsimp only
    rw [if_neg h0, if_neg hn]
  · intro g vals n_total prior inc hci h0 hn
    simp only [lmpMinClause]
    rw [hci]
    dsimp only
    rw [if_neg h0, if_neg hn]
  · intro vals u lv name cnt hcnt h0 hn
    simp only [comparar]
    rw [hcnt]
    rw [if_neg h0, if_neg hn]

/-- Counterexample to claim C4 as stated: at 1 violation out of 3 records
the surface 0-decimal path renders "33,0 %", not "33 %" (str keeps the
trailing ",0"), and round is half-to-even: 100/32 = 3.125 rounds to "3,12",
not the "3,13" that standard (non-banker's) rounding would give. -/
theorem percentage_rounding_cex :
    containsSub (generate_text_surface gSurface selSurface) "(33,0 %)" = true ∧
    containsSub (generate_text_surface gSurface selSurface) "(33 %)" = false ∧
    format_percent (some (pyRound 2 (qdiv (qofInt 100) (qofInt 32)))) = "3,12" ∧
    format_percent (some (pyRound 2 (qdiv (qofInt 100) (qofInt 32)))) ≠ "3,13" :=
  ⟨by decide, by decide, by decide, by decide⟩

/-- Witness for C4 (amended): the surface loop clause at 1 of 3 violations
carries the 0-decimal percentage string. -/
theorem percentage_rounding_amended_witness :
    (check_compliance [5, 1, 15] (gSurface.limits ("lim_inf_" ++ "eca_2017_1a1"))
        (gSurface.limits ("lim_sup_" ++ "eca_2017_1a1")) = some 1) ∧
    surfaceLoopClause gSurface [5, 1, 15] 3 "eca_2017_1a1" =
      " Al comparar los resultados obtenidos con el " ++
        (if containsSub "eca_2017_1a1" "eca_2017" then "ECA 2017"
         else if containsSub "eca_2017_1a1" "eca_2008" then "ECA 2008" else "LGA") ++
        " para agua para la categoría " ++ (regMetaGet "eca_2017_1a1").2 ++ " (" ++
        format_limits (gSurface.limits ("lim_inf_" ++ "eca_2017_1a1"))
          (gSurface.limits ("lim_sup_" ++ "eca_2017_1a1")) ++
        " " ++ gSurface.unidad ++ "), se observa que " ++ toString 1 ++ " (" ++
        format_percent (some (pyRound 0 (qdiv (qofInt (100 * 1)) (qofInt 3)))) ++
        " %) de los registros no cumplen con el valor establecido." :=
  ⟨by decide,
    percentage_rounding_amended.2.1 gSurface [5, 1, 15] 3 "eca_2017_1a1" 1
      (by decide) (by decide) (by decide)⟩

/-- Claim C8 (amended): for every data frame, two threshold columns that
differ only in their bound prefix (lim_inf_ vs lim_sup_) land in the same
regulation group, provided neither column name contains the sediment
markers 'ISGQ' or 'PEL' (columns containing those markers are grouped by
their second underscore-separated token instead, which splits such a pair);
and the returned mapping always lists the groups in first-seen order of the
columns' friendly names, so the same input column order yields the same
group order. -/
theorem regulation_grouping_amended :
    (∀ (x : String) (cols : List String),
        containsSub ("lim_inf_" ++ x) "ISGQ" = false →
        containsSub ("lim_inf_" ++ x) "PEL" = false →
        containsSub ("lim_sup_" ++ x) "ISGQ" = false →
        containsSub ("lim_sup_" ++ x) "PEL" = false →
        ("lim_inf_" ++ x) ∈ cols → ("lim_sup_" ++ x) ∈ cols →
        ∃ e ∈ get_regulation_groups cols,
          ("lim_inf_" ++ x) ∈ e.2 ∧ ("lim_sup_" ++ x) ∈ e.2) ∧
    (∀ cols : List String,
        (get_regulation_groups cols).map Prod.fst =
          dedupKeepFirst ((get_regulation_columns cols).map friendlyName)) := by
  constructor
  · intro x cols hi1 hi2 hs1 hs2 hmem1 hmem2
    have hrepl1 : strReplace ("lim_inf_" ++ x) "lim_inf_" "" = strReplace x "lim_inf_" "" :=
      strReplace_matched _ _ (by decide)
    have hskip : strReplace ("lim_sup_" ++ x) "lim_inf_" "" =
        "lim_sup_" ++ strReplace x "lim_inf_" "" := by
      show String.mk (replaceL "lim_inf_".data [] ("lim_sup_".data ++ x.data)) = _
      rw [replaceL_skip _ _ _ _ ?hc]
      · rfl
      case hc =>
        intro i hi
        have hi8 : i < 8 := by simpa using hi
        interval_cases i <;> rfl
    have hrepl2 : strReplace ("lim_sup_" ++ strReplace x "lim_inf_" "") "lim_sup_" "" =
        strReplace (strReplace x "lim_inf_" "") "lim_sup_" "" :=
      strReplace_matched _ _ (by decide)
    have hfn : friendlyName ("lim_inf_" ++ x) = friendlyName ("lim_sup_" ++ x) := by
      simp only [friendlyName, hi1, hi2, hs1, hs2, Bool.or_self, Bool.false_eq_true,
        if_false, hrepl1, hskip, hrepl2]
    have hreg1 : ("lim_inf_" ++ x) ∈ get_regulation_columns cols := by
      rw [get_regulation_columns, List.mem_filter]
      exact ⟨hmem1, by rw [isRegulationCol,
        show startsWithS ("lim_inf_" ++ x) "lim_" = true from rfl]; rfl⟩
    have hreg2 : ("lim_sup_" ++ x) ∈ get_regulation_columns cols := by
      rw [get_regulation_columns, List.mem_filter]
      exact ⟨hmem2, by rw [isRegulationCol,
        show startsWithS ("lim_sup_" ++ x) "lim_" = true from rfl]; rfl⟩
    have hfind := findGroup_foldl (get_regulation_columns cols) []
      (friendlyName ("lim_inf_" ++ x))
    have hflt1 : ("lim_inf_" ++ x) ∈ (get_regulation_columns cols).filter
        (fun c => friendlyName c = friendlyName ("lim_inf_" ++ x)) := by
      rw [List.mem_filter]
      exact ⟨hreg1, by simp⟩
    have hflt2 : ("lim_sup_" ++ x) ∈ (get_regulation_columns cols).filter
        (fun c => friendlyName c = friendlyName ("lim_inf_" ++ x)) := by
      rw [List.mem_filter]
      exact ⟨hreg2, by simp [hfn]⟩
    have hne : (get_regulation_columns cols).filter
        (fun c => friendlyName c = friendlyName ("lim_inf_" ++ x)) ≠ [] := by
      intro hemp
      rw [hemp] at hflt1
      exact absurd hflt1 (List.not_mem_nil _)
    rw [if_neg hne] at hfind
    refine ⟨(friendlyName ("lim_inf_" ++ x),
      (get_regulation_columns cols).filter
        (fun c => friendlyName c = friendlyName ("lim_inf_" ++ x))),
      findGroup_mem _ _ _ (by rw [get_regulation_groups, hfind]; rfl), hflt1, hflt2⟩
  · intro cols
    rw [get_regulation_groups, keys_foldl, dedupKeepFirst, List.foldl_map]
    rfl

/-- Counterexample to claim C8 as stated: the columns lim_inf_PEL_a and
lim_sup_PEL_a differ only in their bound prefix, yet they land in two
distinct groups ("CCME INF" and "CCME SUP") because the sediment branch
groups any 'PEL'-containing column by its second underscore token. -/
theorem regulation_grouping_cex :
    get_regulation_groups colsPel =
      [("CCME INF", ["lim_inf_PEL_a"]), ("CCME SUP", ["lim_sup_PEL_a"])] ∧
    ¬ ∃ e ∈ get_regulation_groups colsPel,
        "lim_inf_PEL_a" ∈ e.2 ∧ "lim_sup_PEL_a" ∈ e.2 :=
  ⟨by decide, by decide⟩

/-- Witness for C8 (amended): the ECA 2017 3D1 bound pair lands in one
group. -/
theorem regulation_grouping_amended_witness :
    (containsSub ("lim_inf_" ++ "eca_2017_3d1") "ISGQ" = false) ∧
    (("lim_inf_" ++ "eca_2017_3d1") ∈
      (["lim_inf_eca_2017_3d1", "lim_sup_eca_2017_3d1"] : List String)) ∧
    ∃ e ∈ get_regulation_groups ["lim_inf_eca_2017_3d1", "lim_sup_eca_2017_3d1"],
      ("lim_inf_" ++ "eca_2017_3d1") ∈ e.2 ∧ ("lim_sup_" ++ "eca_2017_3d1") ∈ e.2 :=
  ⟨by decide, by decide,
    regulation_grouping_amended.1 "eca_2017_3d1"
      ["lim_inf_eca_2017_3d1", "lim_sup_eca_2017_3d1"]
      (by decide) (by decide) (by decide) (by decide) (by decide) (by decide)⟩
